import Mathlib

/-!
Verification of the Game_Evaluator rule engine.

This file gives a shallow embedding of the repository's core:
* `max_by_key` (src/evaluator.py) and `dictionary_max` (src/game_prep.py):
  selection of the utility vector maximizing one player's entry;
* `Rule.max_n` (src/rule.py): the multi-player game-tree search, embedded
  generically over the four contract operations (`get_legal_moves`,
  `execute_move`, `undo_move`, `get_utility`) that are the only operations
  `max_n` uses, both in its plain form (`maxN`, width `None`) and with the
  width/temperature pruning stage (`maxNW`, randomness as an oracle stream);
* the concrete rule classes of src/rule.py and src/coordinate_rule.py:
  `Tile`, `PatternRule`, `SimpleCapture`, `RuleSum`, `SimpleTurn`, with the
  mutable state (tile coordinates, active-rule registry, turn index) passed
  explicitly.

Python dictionaries keyed by players are modelled as association lists
`List (ℕ × ℚ)`; a failing dictionary lookup (KeyError), a failing list
index, and a non-terminating loop are modelled with `Option`.

The game-state registry (`add_rules` / `remove_rules` / `get_top_rules`)
lives in `game_state.py`, which is not part of the sources; those three
operations are modelled from the spec, as noted on their definitions.
-/

set_option synthInstance.maxSize 1024
set_option maxRecDepth 8000

namespace GameEval

/-- Utility vector: a Python dict mapping player to scalar, as an
association list. -/
abbrev UV := List (ℕ × ℚ)

/-- `d[key]` for a utility vector: `none` models a Python `KeyError`
(including the case `key is None`, which no vector maps). -/
def uvLookup (d : UV) (key : Option ℕ) : Option ℚ :=
  key.bind (fun k => d.lookup k)

/-- The loop of `max_by_key` (src/evaluator.py lines 52-55): scan the whole
list, replacing the current maximum only on a strictly greater value at
`key`. -/
def mbkGo (key : Option ℕ) : UV → List UV → Option UV
  | cur, [] => some cur
  | cur, d :: t => do
      let a ← uvLookup d key
      let b ← uvLookup cur key
      mbkGo key (if b < a then d else cur) t

/-- `max_by_key` (src/evaluator.py lines 46-56): `current_max` starts at
`dictionaries[0]` (IndexError, i.e. `none`, on an empty list) and the loop
runs over the whole list. -/
def max_by_key (key : Option ℕ) : List UV → Option UV
  | [] => none
  | d :: t => mbkGo key d (d :: t)

/-- `dictionary_max` (src/game_prep.py lines 313-324): character-identical
to `max_by_key`, so it shares the embedded loop. -/
def dictionary_max (key : Option ℕ) : List UV → Option UV
  | [] => none
  | d :: t => mbkGo key d (d :: t)

/-- `RuleSum.get_utility` (src/rule.py lines 205-206):
`max_by_key(self.player, [rule.get_utility() for rule in self.sub_rule])`,
with each sibling's own utility given as an argument (a sibling's failure
propagates, as the list comprehension would). -/
def ruleSum_get_utility (player : Option ℕ) (subs : List (Option UV)) : Option UV := do
  let us ← subs.mapM id
  max_by_key player us

/-- Modelled from the spec (§8, tie-break determinism): among a list of
(vector, value-at-key) pairs, the first vector attaining the maximal
value.  Stated with an explicit maximum and a first-match search, to be
compared with the fold `max_by_key` performs. -/
def specFirstMax (ps : List (UV × ℚ)) : Option UV :=
  match ps with
  | [] => none
  | p :: t =>
    let M := t.foldl (fun acc q => max acc q.2) p.2
    ((p :: t).find? (fun q => decide (q.2 = M))).map Prod.fst

/-- Reference fold: keep the current pair unless the next one is strictly
greater (the pure-pair shadow of `mbkGo`). -/
def foldMax : (UV × ℚ) → List (UV × ℚ) → (UV × ℚ)
  | c, [] => c
  | c, q :: t => foldMax (if c.2 < q.2 then q else c) t

/-- The abstract interface `Rule.max_n` (src/rule.py lines 73-105) uses:
`get_legal_moves`, `execute_move`, `undo_move`, `get_utility`, plus the
resolved maximizing player (`self.player` if set, else
`self.get_bottom_rule().player`, read from the current state).  Mutation
of `self` becomes explicit state passing. -/
structure GameI (μ σ : Type) where
  legal : σ → List μ
  exec : μ → σ → σ
  undo : μ → σ → σ
  util : σ → Option UV
  player : σ → Option ℕ

/-- The move loop of `max_n` (src/rule.py lines 100-104): execute each
move, recurse, undo, collecting the child utility vectors; the state is
threaded exactly as the in-place mutation does. -/
def maxNChildren (G : GameI μ σ) (f : σ → Option (UV × σ)) :
    List μ → σ → Option (List UV × σ)
  | [], s => some ([], s)
  | m :: ms, s => do
      let (u, s1) ← f (G.exec m s)
      let (us, s2) ← maxNChildren G f ms (G.undo m s1)
      pure (u :: us, s2)

/-- `Rule.max_n(depth)` with `width=None` (the default): the pruning block
`if width and width < len(legal)` is skipped, so no randomness is read.
At depth 0 or with no legal moves the current utility is returned,
otherwise the best child vector for the resolved player. -/
def maxN (G : GameI μ σ) : ℕ → σ → Option (UV × σ) :=
  Nat.rec
    (motive := fun _ => σ → Option (UV × σ))
    (fun s => (G.util s).map (fun u => (u, s)))
    (fun _ ih s =>
      let legal := G.legal s
      if legal.isEmpty then (G.util s).map (fun u => (u, s))
      else do
        let (us, s1) ← maxNChildren G ih legal s
        let best ← max_by_key (G.player s) us
        pure (best, s1))

/-- The ambient randomness `max_n` reads (src/rule.py lines 88-96): the
stream of `random()` draws, and the behaviour of `sample` on the i-th
pruning event, both indexed by a counter threaded through the search. -/
structure Oracle (μ : Type) where
  rand : ℕ → ℚ
  samp : ℕ → List μ → List μ

/-- The `evaluate` closure of the pruning step (src/rule.py lines 89-93):
execute the move, run the intermediate search `max_n(k)` (width `None`),
read the resolved player's entry, undo; the per-move sort keys are
computed in list order, threading the state. -/
def evalKeys (G : GameI μ σ) (k : ℕ) (player : Option ℕ) :
    List μ → σ → Option (List (μ × ℚ) × σ)
  | [], s => some ([], s)
  | m :: ms, s => do
      let (u, s1) ← maxN G k (G.exec m s)
      let v ← uvLookup u player
      let (ps, s2) ← evalKeys G k player ms (G.undo m s1)
      pure ((m, v) :: ps, s2)

/-- Stable insertion into an ascending run: the new element goes after
every element with a strictly smaller key and before equal keys met later,
which together with `stableSortByKey` reproduces the (stable, ascending)
behaviour of Python's `sorted(legal, key=evaluate)`. -/
def insSorted (x : μ × ℚ) : List (μ × ℚ) → List (μ × ℚ)
  | [] => [x]
  | y :: t => if y.2 < x.2 then y :: insSorted x t else x :: y :: t

/-- Stable ascending sort by key (the model of Python's `sorted`). -/
def stableSortByKey (l : List (μ × ℚ)) : List (μ × ℚ) :=
  l.foldr insSorted []

/-- `sorted(legal, key=evaluate)[:width]` mapped back to moves. -/
def sortTake (w : ℕ) (ps : List (μ × ℚ)) : List μ :=
  ((stableSortByKey ps).take w).map Prod.fst

/-- The pruning block of `max_n` (src/rule.py lines 87-96):
`if width and width < len(legal)` (Python's `0` is falsy, hence the
`w ≠ 0` conjunct); on `temp < random()` the heuristic branch sorts by the
depth-`k` evaluation and keeps the first `width` moves, otherwise
`sample(self.get_legal_moves(), width)` is read from the oracle.  Either
branch consumes one oracle event. -/
def pruneStage (G : GameI μ σ) (width : Option ℕ) (temp : ℚ) (k : ℕ)
    (O : Oracle μ) (ctr : ℕ) (s : σ) : Option (List μ × σ × ℕ) :=
  let legal := G.legal s
  match width with
  | none => some (legal, s, ctr)
  | some w =>
    if w ≠ 0 ∧ w < legal.length then
      if temp < O.rand ctr then
        (evalKeys G k (G.player s) legal s).map (fun r => (sortTake w r.1, r.2, ctr + 1))
      else some (O.samp ctr legal, s, ctr + 1)
    else some (legal, s, ctr)

/-- The move loop of the pruned search, threading the oracle counter
alongside the state. -/
def maxNWChildren (G : GameI μ σ) (f : σ → ℕ → Option ((UV × σ) × ℕ)) :
    List μ → σ → ℕ → Option ((List UV × σ) × ℕ)
  | [], s, ctr => some (([], s), ctr)
  | m :: ms, s, ctr => do
      let ((u, s1), c1) ← f (G.exec m s) ctr
      let ((us, s2), c2) ← maxNWChildren G f ms (G.undo m s1) c1
      pure ((u :: us, s2), c2)

/-- The depth-0 case of the pruned `max_n`: the pruning block still runs
(as in the source), then the current utility is returned. -/
def maxNWBase (G : GameI μ σ) (width : Option ℕ) (temp : ℚ) (O : Oracle μ)
    (k : ℕ) (s : σ) (ctr : ℕ) : Option ((UV × σ) × ℕ) := do
  let (_, s1, c1) ← pruneStage G width temp k O ctr s
  (G.util s1).map (fun u => ((u, s1), c1))

/-- The positive-depth case of the pruned `max_n`, parameterized by the
result of the search one level down (`ih`). -/
def maxNWStep (G : GameI μ σ) (width : Option ℕ) (temp : ℚ) (O : Oracle μ)
    (ih : ℕ → σ → ℕ → Option ((UV × σ) × ℕ))
    (k : ℕ) (s : σ) (ctr : ℕ) : Option ((UV × σ) × ℕ) := do
  let (legal, s1, c1) ← pruneStage G width temp k O ctr s
  if legal.isEmpty then (G.util s1).map (fun u => ((u, s1), c1))
  else do
    let ((us, s2), c2) ← maxNWChildren G (fun st c => ih 1 st c) legal s1 c1
    let best ← max_by_key (G.player s) us
    pure ((best, s2), c2)

/-- `Rule.max_n(depth, width, temp, k)` (src/rule.py lines 73-105) in
full: the maximizing player is resolved on entry, the pruning block runs
first (also at depth 0, as in the source), and the recursive calls pass
`depth - 1, width, temp` so `k` resets to its default 1 below the root. -/
def maxNW (G : GameI μ σ) (width : Option ℕ) (temp : ℚ) (O : Oracle μ) :
    ℕ → ℕ → σ → ℕ → Option ((UV × σ) × ℕ) :=
  Nat.rec
    (motive := fun _ => ℕ → σ → ℕ → Option ((UV × σ) × ℕ))
    (maxNWBase G width temp O)
    (fun _ ih => maxNWStep G width temp O ih)

/-- The depth-1 scenario of §8: players A = 0, B = 1; the root (state 0)
has three legal moves leading to terminal states 1, 2, 3 whose utility
vectors are the three given in the spec; A is the player to move.  `undo`
returns to the root, as the reversibility contract promises. -/
def G3 : GameI ℕ ℕ where
  legal := fun s => if s = 0 then [1, 2, 3] else []
  exec := fun m _ => m
  undo := fun _ _ => 0
  util := fun s =>
    some (if s = 1 then [(0, mkRat 2 10), (1, mkRat 8 10)]
          else if s = 2 then [(0, mkRat 6 10), (1, mkRat 4 10)]
          else if s = 3 then [(0, mkRat 9 10), (1, mkRat 1 10)]
          else [(0, mkRat 1 2), (1, mkRat 1 2)])
  player := fun _ => some 0

/-! ## The concrete rule tree

`Tile` holds a coordinate tuple (modelled as a pair of integers), a
`PatternRule` chain sits above it, a `SimpleCapture` wraps the chain into
a piece, `RuleSum` aggregates the pieces of one player, and `SimpleTurn`
sequences the players.  Mutable object state becomes explicit:
`Env` holds every tile's coordinates (keyed by piece id) plus the
game state's active-rule registry, and `TurnSt` holds `SimpleTurn`'s
mutable `turn` and `sub_rule` fields (`sub_rule` as an index into the
sequence).  The `changed` listener notification mutates no rule state and
is dropped. -/

/-- A coordinate tuple (`Tile.coords`). -/
abbrev Coords := ℤ × ℤ

/-- A coordinate-chain move `(new_coords, old_coords)`, as generated by
`PatternRule.generate_legal_moves` and consumed by `Tile.execute_move` /
`Tile.undo_move`. -/
abbrev CMove := Coords × Coords

/-- A `SimpleCapture` move `(sub_rule, (new, old), *to_capture)`: the
`sub_rule` component is the piece's own chain and is left implicit; the
captured pieces are their ids. -/
abbrev PMove := CMove × List ℕ

/-- A `RuleSum` move `(rule, sub_move)`: the originating sibling as its
index in the sum's sequence. -/
abbrev SMove := ℕ × PMove

/-- Static configuration: each piece id's type tag, the object-level class
a radar filter matches. -/
structure Cfg where
  tag : ℕ → ℕ

/-- The mutable environment: every piece's bottom coordinates (an
association list keyed by piece id, standing for the per-object `coords`
attribute) and the game state's registry of active rules. -/
structure Env where
  coords : List (ℕ × Coords)
  active : Finset ℕ
deriving DecidableEq

/-- `SimpleTurn`'s mutable fields: `turn` (the index counter) and `cur`
(the index of the object currently referenced by `self.sub_rule`). -/
structure TurnSt where
  turn : ℕ
  cur : ℕ
deriving DecidableEq

/-- A coordinate-rule chain: `Tile` at the bottom, any number of
`PatternRule` layers (each bringing its `get_step` / `does_stop_on` /
`does_skip` policies) above it. -/
inductive Chain where
  | tile : Chain
  | pattern (step : Coords → List Coords) (stop : Coords → Bool)
      (skip : Coords → Bool) (sub : Chain)

/-- A piece: a `SimpleCapture` rule (with its `radar` of type tags)
wrapping a coordinate chain, owning the tile registered under `pid`. -/
structure Piece where
  pid : ℕ
  radar : List ℕ
  chain : Chain

/-- The rule variants quantified over by the reversibility property: a
piece (`SimpleCapture` over a chain), a `RuleSum` of pieces, and a
`SimpleTurn` whose per-player sub-rules are `RuleSum`s, mirroring the
piece → aggregate → sequencer composition of §2. -/
inductive GRule where
  | piece (p : Piece)
  | rsum (subs : List Piece)
  | sturn (seq : List (List Piece))

/-- A move of any of the three rule variants. -/
inductive Mv where
  | pm (m : PMove)
  | sm (m : SMove)
  | tm (m : Option (ℕ × SMove))
deriving DecidableEq

/-- The current coordinates of piece `pid` (`get_bottom_rule().coords`). -/
def coordsOf (env : Env) (pid : ℕ) : Coords :=
  (env.coords.lookup pid).getD (0, 0)

/-- In-place update of one tile's `coords` attribute: replace the value at
the first entry for `pid`, leaving the list's shape untouched. -/
def setC : List (ℕ × Coords) → ℕ → Coords → List (ℕ × Coords)
  | [], _, _ => []
  | (k, v) :: t, pid, c => if k = pid then (k, c) :: t else (k, v) :: setC t pid c

/-- Modelled from the spec (§6): `game_state.add_rules(r)` activates a rule
instance in the registry without creating it.  `game_state.py` is not
among the sources. -/
def addRules (env : Env) (pid : ℕ) : Env :=
  { env with active := insert pid env.active }

/-- Modelled from the spec (§6): `game_state.remove_rules(r)` deactivates a
rule instance without destroying it. -/
def removeRules (env : Env) (pid : ℕ) : Env :=
  { env with active := env.active.erase pid }

/-- Canonical ascending enumeration of a finite set of ids. -/
def sortIds (s : Finset ℕ) : List ℕ :=
  Quot.liftOn s.val (fun l => l.insertionSort (· ≤ ·))
    (fun a b h => by
      have ha := List.sorted_insertionSort (· ≤ ·) a
      have hb := List.sorted_insertionSort (· ≤ ·) b
      exact List.eq_of_perm_of_sorted
        ((List.perm_insertionSort _ a).trans
          ((Quotient.exact (Quot.sound h)).trans (List.perm_insertionSort _ b).symm))
        ha hb)

/-- Modelled from the spec (§6): `game_state.get_top_rules(*typeFilters)`
returns the currently active top-level rules matching any given type
filter.  The spec fixes no order, so the registry is a set enumerated in
a canonical (ascending-id) order. -/
def getTopRules (cfg : Cfg) (env : Env) (filters : List ℕ) : List ℕ :=
  sortIds (env.active.filter (fun q => cfg.tag q ∈ filters))

/-- One pass of the inner `for coords in edge` loop body of
`PatternRule.generate_legal_moves` (src/coordinate_rule.py lines 77-82):
record `(coords, current)` unless skipped or already known, extend the
next frontier unless stopped or already checked, then mark checked. -/
def edgeStep (step : Coords → List Coords) (stop skip : Coords → Bool)
    (cur : Coords) (acc : List CMove × List Coords × List Coords) (c : Coords) :
    List CMove × List Coords × List Coords :=
  let legal := acc.1
  let newEdge := acc.2.1
  let checked := acc.2.2
  let legal2 := if skip c = false ∧ (c, cur) ∉ legal then legal ++ [(c, cur)] else legal
  let newEdge2 := if stop c = false ∧ c ∉ checked then newEdge ++ step c else newEdge
  (legal2, newEdge2, checked ++ [c])

/-- The `while edge:` loop of `PatternRule.generate_legal_moves`
(src/coordinate_rule.py lines 75-83).  The fuel bounds the number of
frontier generations; `none` models a run the loop has not finished
within the fuel. -/
def patternLoop (step : Coords → List Coords) (stop skip : Coords → Bool)
    (cur : Coords) : ℕ → List CMove → List Coords → List Coords → Option (List CMove)
  | _, legal, [], _ => some legal
  | 0, _, _ :: _, _ => none
  | fuel + 1, legal, e :: es, checked =>
    match (e :: es).foldl (edgeStep step stop skip cur) (legal, [], checked) with
    | (legal2, newEdge, checked2) => patternLoop step stop skip cur fuel legal2 newEdge checked2

/-- `get_legal_moves` along a coordinate chain: `Tile.generate_legal_moves`
returns `[]`; a `PatternRule` starts from its sub-rule's moves and expands
the frontier `step(current)` (src/coordinate_rule.py lines 19-20 and
71-84). -/
def chainLegal : Chain → Coords → ℕ → Option (List CMove)
  | .tile, _, _ => some []
  | .pattern step stop skip sub, cur, fuel => do
      let legal ← chainLegal sub cur fuel
      patternLoop step stop skip cur fuel legal (step cur) []

/-- The capture scan of `SimpleCapture.generate_legal_moves`
(src/coordinate_rule.py lines 150-152): every active rule matched by the
radar whose bottom coordinates equal the move's destination. -/
def capturesFor (cfg : Cfg) (env : Env) (radar : List ℕ) (n : Coords) : List ℕ :=
  (getTopRules cfg env radar).filter (fun q => coordsOf env q = n)

/-- `SimpleCapture.generate_legal_moves` (src/coordinate_rule.py lines
146-154): each chain move `(new, old)` becomes
`(self.sub_rule, (new, old), *to_capture)`. -/
def pieceLegal (cfg : Cfg) (p : Piece) (env : Env) (fuel : ℕ) : Option (List PMove) :=
  (chainLegal p.chain (coordsOf env p.pid) fuel).map
    (List.map (fun m => (m, capturesFor cfg env p.radar m.1)))

/-- `CaptureRule.execute_move` (src/coordinate_rule.py lines 132-136):
deactivate every captured piece, then delegate the positional change to
the chain, whose bottom tile sets `coords = move[0]`. -/
def pieceExec (p : Piece) (m : PMove) (env : Env) : Env :=
  let env2 := m.2.foldl removeRules env
  { env2 with coords := setC env2.coords p.pid m.1.1 }

/-- `CaptureRule.undo_move` (src/coordinate_rule.py lines 138-142):
delegate the chain's undo (`coords = move[1]`), then reactivate every
captured piece. -/
def pieceUndo (p : Piece) (m : PMove) (env : Env) : Env :=
  let env2 := { env with coords := setC env.coords p.pid m.1.2 }
  m.2.foldl addRules env2

/-- `RuleSum.get_legal_moves` (src/rule.py lines 179-184): the sibling
moves in sequence order, each tagged with its originating rule (as the
index `i` counting from the given start). -/
def sumLegal (cfg : Cfg) (env : Env) (fuel : ℕ) : List Piece → ℕ → Option (List SMove)
  | [], _ => some []
  | p :: ps, i => do
      let ms ← pieceLegal cfg p env fuel
      let rest ← sumLegal cfg env fuel ps (i + 1)
      pure (ms.map (fun m => (i, m)) ++ rest)

/-- `RuleSum.execute_move` (src/rule.py lines 186-188): dispatch on the
tagged rule. -/
def sumExec (subs : List Piece) (m : SMove) (env : Env) : Env :=
  match subs[m.1]? with
  | some p => pieceExec p m.2 env
  | none => env

/-- `RuleSum.undo_move` (src/rule.py lines 190-192). -/
def sumUndo (subs : List Piece) (m : SMove) (env : Env) : Env :=
  match subs[m.1]? with
  | some p => pieceUndo p m.2 env
  | none => env

/-- `(self.turn + 1) % len(self.sequence)` (src/rule.py line 147). -/
def turnAdvance (n t : ℕ) : ℕ := (t + 1) % n

/-- `(self.turn - 1) % len(self.sequence)` (src/rule.py line 157):
computed on integers; Python's `%` with a positive modulus agrees with
`Int.emod`, which is never negative there. -/
def turnRetreat (n t : ℕ) : ℕ := (((t : ℤ) - 1) % (n : ℤ)).toNat

/-- `SimpleTurn.get_legal_moves` (src/rule.py lines 135-139): delegate to
`self.sub_rule` (the object at index `cur`), wrapping each sub-move as
`(self.sub_rule, sub_move)`. -/
def turnLegal (cfg : Cfg) (seq : List (List Piece)) (st : TurnSt) (env : Env)
    (fuel : ℕ) : Option (List (ℕ × SMove)) :=
  match seq[st.cur]? with
  | some subs => (sumLegal cfg env fuel subs 0).map (List.map (fun m => (st.cur, m)))
  | none => none

/-- `SimpleTurn.execute_move` (src/rule.py lines 146-151): advance `turn`,
point `sub_rule` at the new index, then execute the delegated sub-move on
the rule the move carries (`move=None` only advances). -/
def turnExec (seq : List (List Piece)) (st : TurnSt) (env : Env)
    (m : Option (ℕ × SMove)) : TurnSt × Env :=
  let t2 := turnAdvance seq.length st.turn
  let st2 : TurnSt := ⟨t2, t2⟩
  match m with
  | none => (st2, env)
  | some (j, sm) =>
    (st2, match seq[j]? with
          | some subs => sumExec subs sm env
          | none => env)

/-- `SimpleTurn.undo_move` (src/rule.py lines 153-158): undo the delegated
sub-move first, then retreat `turn` and repoint `sub_rule`. -/
def turnUndo (seq : List (List Piece)) (st : TurnSt) (env : Env)
    (m : Option (ℕ × SMove)) : TurnSt × Env :=
  let env2 := match m with
    | none => env
    | some (j, sm) =>
      match seq[j]? with
      | some subs => sumUndo subs sm env
      | none => env
  let t2 := turnRetreat seq.length st.turn
  (⟨t2, t2⟩, env2)

/-- `SimpleTurn.__init__` (src/rule.py lines 130-133): stores
`turn % len(sequence)` (failing on an empty sequence) but always points
`sub_rule` at `sequence[0]`. -/
def mkSimpleTurn (seq : List (List Piece)) (t : ℤ) : Option TurnSt :=
  if seq.length = 0 then none
  else some ⟨((t % (seq.length : ℤ)).toNat), 0⟩

/-- `get_legal_moves` of the three rule variants. -/
def legalMoves (cfg : Cfg) : GRule → TurnSt → Env → ℕ → Option (List Mv)
  | .piece p, _, env, fuel => (pieceLegal cfg p env fuel).map (List.map Mv.pm)
  | .rsum subs, _, env, fuel => (sumLegal cfg env fuel subs 0).map (List.map Mv.sm)
  | .sturn seq, st, env, fuel =>
      (turnLegal cfg seq st env fuel).map (List.map (fun m => Mv.tm (some m)))

/-- `execute_move` of the three rule variants (a move of the wrong shape,
which no enumeration produces, leaves the state unchanged). -/
def execMove : GRule → Mv → TurnSt × Env → TurnSt × Env
  | .piece p, .pm m, (st, env) => (st, pieceExec p m env)
  | .rsum subs, .sm m, (st, env) => (st, sumExec subs m env)
  | .sturn seq, .tm m, (st, env) => turnExec seq st env m
  | _, _, se => se

/-- `undo_move` of the three rule variants. -/
def undoMove : GRule → Mv → TurnSt × Env → TurnSt × Env
  | .piece p, .pm m, (st, env) => (st, pieceUndo p m env)
  | .rsum subs, .sm m, (st, env) => (st, sumUndo subs m env)
  | .sturn seq, .tm m, (st, env) => turnUndo seq st env m
  | _, _, se => se

/-- A `SimpleTurn` node is in sync when `self.sub_rule` is the element at
index `turn` and the stored index is in range — the situation every
construction with `turn ≡ 0 (mod N)` establishes and every
execute/undo pair preserves. -/
def syncOK : GRule → TurnSt → Prop
  | .sturn seq, st => st.cur = st.turn ∧ st.turn < seq.length
  | _, _ => True

/-! ## Concrete instances -/

/-- §8's pattern policy: the four axis-aligned unit neighbours, restricted
to the 8×8 board. -/
def c4step (c : Coords) : List Coords :=
  [(c.1 + 1, c.2), (c.1 - 1, c.2), (c.1, c.2 + 1), (c.1, c.2 - 1)].filter
    (fun d => decide (0 ≤ d.1 ∧ d.1 ≤ 7 ∧ 0 ≤ d.2 ∧ d.2 ≤ 7))

/-- §8's pattern expander: axis-unit steps, `stops_on` = occupied (never,
on the empty board), `skips` constantly false, above a sub-rule with no
moves of its own. -/
def c4chain : Chain := .pattern c4step (fun _ => false) (fun _ => false) .tile

/-- The destinations the §8 configuration enumerates from (4,4). -/
def c4dests : List Coords := ((chainLegal c4chain (4, 4) 64).getD []).map Prod.fst

/-- All 64 cells of the 8×8 board. -/
def c4cells : List Coords :=
  (List.range 8).flatMap (fun i => (List.range 8).map (fun j => ((i : ℤ), (j : ℤ))))

/-- A piece with a single pattern move (0,0) → (1,0) and an empty radar. -/
def pieceA : Piece :=
  ⟨0, [], .pattern (fun c => if c = (0, 0) then [(1, 0)] else [])
      (fun _ => true) (fun _ => false) .tile⟩

/-- Trivial tagging for the one-piece scenarios. -/
def cfgX : Cfg := ⟨fun _ => 0⟩

/-- Environment owning just `pieceA` at (0,0). -/
def envX : Env := ⟨[(0, (0, 0))], {0}⟩

/-- `SimpleTurn` over two players: `pieceA`'s `RuleSum`, and an empty
`RuleSum`. -/
def rX : GRule := .sturn [[pieceA], []]

/-- The state `SimpleTurn(game_state, r0, r1, turn=1)` constructs: stored
index 1, `sub_rule` pointing at position 0. -/
def stX : TurnSt := ⟨1, 0⟩

/-- The single legal move of `rX`: player 0 moves `pieceA` to (1,0),
capturing nothing. -/
def mvX : Mv := .tm (some (0, (0, (((1, 0), (0, 0)), []))))

/-- Three empty per-player sub-rules for the turn-cycling scenarios. -/
def seq3 : List (List Piece) := [[], [], []]

/-- The empty environment. -/
def env0 : Env := ⟨[], ∅⟩

/-- The §8 capture scenario's capturing piece: one chain move to (1,0),
radar matching tag 1. -/
def pieceC2 : Piece :=
  ⟨0, [1], .pattern (fun c => if c = (0, 0) then [(1, 0)] else [])
      (fun _ => true) (fun _ => false) .tile⟩

/-- Tags are the ids themselves in the capture scenario. -/
def cfg2 : Cfg := ⟨fun n => n⟩

/-- Capture scenario: the capturer (id 0) at (0,0), the single opposing
piece (id 1) at the destination (1,0), both active. -/
def env2 : Env := ⟨[(0, (0, 0)), (1, (1, 0))], {0, 1}⟩

/-- An oracle whose `random()` stream is constantly 0 and whose `sample`
returns the list unchanged. -/
def OW1 : Oracle ℕ := ⟨fun _ => 0, fun _ l => l⟩

/-- An oracle whose `random()` stream is constantly 1/2 and whose `sample`
drops everything. -/
def OW2 : Oracle ℕ := ⟨fun _ => mkRat 1 2, fun _ _ => []⟩

/-! ## Theorems -/

theorem foldl_max_le_init (t : List (UV × ℚ)) :
    ∀ a : ℚ, a ≤ t.foldl (fun acc q => max acc q.2) a := by
  induction t with
  | nil => intro a; exact le_refl a
  | cons q r ih => intro a; exact le_trans (le_max_left a q.2) (ih (max a q.2))

theorem mbkGo_eq_foldMax (key : Option ℕ) :
    ∀ (t : List (UV × ℚ)) (c : UV × ℚ), uvLookup c.1 key = some c.2 →
      (∀ p ∈ t, uvLookup p.1 key = some p.2) →
      mbkGo key c.1 (t.map Prod.fst) = some (foldMax c t).1 := by
  intro t
  induction t with
  | nil => intro c hc _; rfl
  | cons q r ih =>
    intro c hc hall
    have hq : uvLookup q.1 key = some q.2 := hall q (by simp)
    have hr : ∀ p ∈ r, uvLookup p.1 key = some p.2 := fun p hp => hall p (by simp [hp])
    rw [foldMax]
    show mbkGo key c.1 (q.1 :: r.map Prod.fst) = _
    rw [mbkGo, hq, hc]
    by_cases hlt : c.2 < q.2
    · simpa [hlt] using ih q hq hr
    · simpa [hlt] using ih c hc hr

theorem specFirstMax_cons (c : UV × ℚ) (t : List (UV × ℚ)) :
    specFirstMax (c :: t) =
      ((c :: t).find?
        (fun p => decide (p.2 = t.foldl (fun acc q => max acc q.2) c.2))).map Prod.fst := rfl

theorem specFirstMax_eq_foldMax :
    ∀ (t : List (UV × ℚ)) (c : UV × ℚ), specFirstMax (c :: t) = some (foldMax c t).1 := by
  intro t
  induction t with
  | nil =>
    intro c
    simp [specFirstMax_cons, List.find?, foldMax]
  | cons q r ih =>
    intro c
    rw [foldMax, ← ih (if c.2 < q.2 then q else c)]
    by_cases hlt : c.2 < q.2
    · simp only [hlt, if_true]
      have hM : List.foldl (fun acc p => max acc p.2) c.2 (q :: r)
          = List.foldl (fun acc p => max acc p.2) q.2 r := by
        simp only [List.foldl_cons, max_eq_right (le_of_lt hlt)]
      have hcM : ¬ (c.2 = List.foldl (fun acc p => max acc p.2) q.2 r) :=
        ne_of_lt (lt_of_lt_of_le hlt (foldl_max_le_init r q.2))
      rw [specFirstMax_cons, hM, List.find?_cons_of_neg _ (by simpa using hcM)]
      rw [specFirstMax_cons]
    · simp only [hlt, if_false]
      have hM : List.foldl (fun acc p => max acc p.2) c.2 (q :: r)
          = List.foldl (fun acc p => max acc p.2) c.2 r := by
        simp only [List.foldl_cons, max_eq_left (not_lt.mp hlt)]
      rw [specFirstMax_cons, hM, specFirstMax_cons]
      by_cases hc : c.2 = List.foldl (fun acc p => max acc p.2) c.2 r
      · rw [List.find?_cons_of_pos _ (by simpa using hc),
          List.find?_cons_of_pos _ (by simpa using hc)]
      · have hqM : ¬ (q.2 = List.foldl (fun acc p => max acc p.2) c.2 r) :=
          ne_of_lt (lt_of_le_of_lt (not_lt.mp hlt)
            (lt_of_le_of_ne (foldl_max_le_init r c.2) hc))
        rw [List.find?_cons_of_neg _ (by simpa using hc),
          List.find?_cons_of_neg _ (by simpa using hqM),
          List.find?_cons_of_neg _ (by simpa using hc)]

/-- C6: whenever two or more candidate utility vectors tie on the
maximizing player's key, the selection operation returns the first
maximal vector in enumeration order: for any list of (vector, value)
pairs whose lookups at `key` succeed, `max_by_key` returns exactly the
first vector attaining the maximal value (`specFirstMax`, stated with an
explicit maximum and a first-match search); and `dictionary_max`, the
copy used by `GameState.n_max`, agrees with `max_by_key` (which is what
`Rule.max_n` (`maxN`/`maxNW`) and `RuleSum.get_utility`
(`ruleSum_get_utility`) call) on every input. -/
theorem c6_tie_break (key : Option ℕ) (ps : List (UV × ℚ))
    (hps : ∀ p ∈ ps, uvLookup p.1 key = some p.2) :
    max_by_key key (ps.map Prod.fst) = specFirstMax ps ∧
    ∀ (k2 : Option ℕ) (ds : List UV), dictionary_max k2 ds = max_by_key k2 ds := by
  constructor
  · match ps, hps with
    | [], _ => rfl
    | p :: t, hps =>
      have hp : uvLookup p.1 key = some p.2 := hps p (by simp)
      have ht : ∀ x ∈ t, uvLookup x.1 key = some x.2 := fun x hx => hps x (by simp [hx])
      show mbkGo key p.1 (p.1 :: t.map Prod.fst) = _
      rw [mbkGo, hp, specFirstMax_eq_foldMax t p]
      simpa using mbkGo_eq_foldMax key t p hp ht
  · intro k2 ds
    cases ds <;> rfl

theorem c6_witness :
    (∀ p ∈ [(([(0, mkRat 1 2)] : UV), mkRat 1 2),
            (([(0, mkRat 9 10)] : UV), mkRat 9 10),
            (([(0, mkRat 9 10), (1, 0)] : UV), mkRat 9 10)],
        uvLookup p.1 (some 0) = some p.2) ∧
    (max_by_key (some 0)
        ([(([(0, mkRat 1 2)] : UV), mkRat 1 2),
          (([(0, mkRat 9 10)] : UV), mkRat 9 10),
          (([(0, mkRat 9 10), (1, 0)] : UV), mkRat 9 10)].map Prod.fst) =
      specFirstMax
        [(([(0, mkRat 1 2)] : UV), mkRat 1 2),
         (([(0, mkRat 9 10)] : UV), mkRat 9 10),
         (([(0, mkRat 9 10), (1, 0)] : UV), mkRat 9 10)] ∧
     ∀ (k2 : Option ℕ) (ds : List UV), dictionary_max k2 ds = max_by_key k2 ds) :=
  ⟨by decide,
   c6_tie_break (some 0)
     [(([(0, mkRat 1 2)] : UV), mkRat 1 2),
      (([(0, mkRat 9 10)] : UV), mkRat 9 10),
      (([(0, mkRat 9 10), (1, 0)] : UV), mkRat 9 10)]
     (by decide)⟩

theorem mbkGo_mem (key : Option ℕ) :
    ∀ (t : List UV) (cur : UV), uvLookup cur key ≠ none → (∀ d ∈ t, uvLookup d key ≠ none) →
      ∃ r, mbkGo key cur t = some r ∧ (r = cur ∨ r ∈ t) := by
  intro t
  induction t with
  | nil => intro cur _ _; exact ⟨cur, rfl, Or.inl rfl⟩
  | cons d t ih =>
    intro cur hcur hall
    obtain ⟨a, ha⟩ := Option.ne_none_iff_exists'.mp (hall d (by simp))
    obtain ⟨b, hb⟩ := Option.ne_none_iff_exists'.mp hcur
    have hcur2 : uvLookup (if b < a then d else cur) key ≠ none := by
      by_cases h : b < a <;> simp [h, ha, hb]
    obtain ⟨r, hr, hmem⟩ := ih (if b < a then d else cur) hcur2
      (fun x hx => hall x (by simp [hx]))
    refine ⟨r, ?_, ?_⟩
    · rw [mbkGo, ha, hb]; exact hr
    · rcases hmem with h | h
      · by_cases hba : b < a
        · right; rw [h, if_pos hba]; exact List.mem_cons_self d t
        · left; rw [h, if_neg hba]
      · right; exact List.mem_cons_of_mem d h

/-- C10: the utility-vector selection is defined exactly on non-empty
input: on any non-empty list of vectors whose lookups at the key succeed,
`max_by_key` returns an element of the list, and on the empty list it
fails (`none`, the embedded IndexError of `dictionaries[0]`); hence
`RuleSum.get_utility` fails on an aggregate with no siblings; and the
`max_n` recursion hands the selection the child vectors of a non-empty
legal-move list, which is never the empty list, so that call cannot be
the source of the failure. -/
theorem c10_selection_totality :
    (∀ (key : Option ℕ) (ds : List UV), ds ≠ [] → (∀ d ∈ ds, uvLookup d key ≠ none) →
        ∃ d ∈ ds, max_by_key key ds = some d) ∧
    (∀ key : Option ℕ, max_by_key key [] = none) ∧
    (∀ p : Option ℕ, ruleSum_get_utility p [] = none) ∧
    (∀ (μ σ : Type) (G : GameI μ σ) (f : σ → Option (UV × σ)) (m : μ) (ms : List μ)
        (s : σ) (us : List UV) (s1 : σ),
        maxNChildren G f (m :: ms) s = some (us, s1) → us ≠ []) := by
  refine ⟨?_, fun _ => rfl, fun _ => rfl, ?_⟩
  · intro key ds hne hall
    match ds, hne with
    | d :: t, _ =>
      obtain ⟨r, hr, hmem⟩ := mbkGo_mem key (d :: t) d (hall d (by simp)) hall
      refine ⟨r, ?_, hr⟩
      rcases hmem with h | h
      · rw [h]; exact List.mem_cons_self d t
      · exact h
  · intro μ σ G f m ms s us s1 h hc
    subst hc
    rw [maxNChildren] at h
    cases hf : f (G.exec m s) with
    | none => simp [hf] at h
    | some v =>
      obtain ⟨u, s2⟩ := v
      cases hrec : maxNChildren G f ms (G.undo m s2) with
      | none => simp [hf, hrec] at h
      | some w =>
        obtain ⟨us2, s3⟩ := w
        simp [hf, hrec] at h

theorem c10_witness :
    (∃ d ∈ [[((0 : ℕ), (1 : ℚ))]], max_by_key (some 0) [[(0, 1)]] = some d) ∧
    ([([] : UV)] ≠ []) :=
  ⟨c10_selection_totality.1 (some 0) [[(0, 1)]] (by decide) (by decide),
   c10_selection_totality.2.2.2 ℕ ℕ G3 (fun s => some ([], s)) 1 [] 0 [[]] 0 (by decide)⟩

/-- C3: on the depth-1 two-player tree of §8 (`G3`: player to move A = 0,
three legal moves to terminal vectors {A:0.2,B:0.8}, {A:0.6,B:0.4},
{A:0.9,B:0.1}), the un-pruned `max_n` at depth 1 returns the whole vector
{A:0.9,B:0.1} — the child maximizing A's own entry — and not the vector
holding the globally largest scalar (B's 0.8). -/
theorem c3_depth_one :
    maxN G3 1 0 = some ([(0, mkRat 9 10), (1, mkRat 1 10)], 0) ∧
    maxN G3 1 0 ≠ some ([(0, mkRat 2 10), (1, mkRat 8 10)], 0) := by
  constructor <;> decide

theorem patternLoop_step {step : Coords → List Coords} {stop skip : Coords → Bool}
    {cur : Coords} {fuel f2 : ℕ} {legal : List CMove} {e : Coords} {es checked : List Coords}
    {L2 : List CMove} {E2 C2 : List Coords}
    (hf : fuel = f2 + 1)
    (h : (e :: es).foldl (edgeStep step stop skip cur) (legal, [], checked) = (L2, E2, C2)) :
    patternLoop step stop skip cur fuel legal (e :: es) checked
      = patternLoop step stop skip cur f2 L2 E2 C2 := by
  subst hf
  simp only [patternLoop]
  rw [h]

theorem patternLoop_nil {step : Coords → List Coords} {stop skip : Coords → Bool} {cur : Coords}
    (fuel : ℕ) (legal : List CMove) (checked : List Coords) :
    patternLoop step stop skip cur fuel legal [] checked = some legal := by
  cases fuel <;> rfl

theorem c4_fold1 :
    ([(5, 4), (3, 4), (4, 5), (4, 3)] : List Coords).foldl (edgeStep c4step (fun _ => false) (fun _ => false) (4, 4))
      (([] : List CMove), ([] : List Coords), ([] : List Coords))
    = (([((5, 4), (4, 4)), ((3, 4), (4, 4)), ((4, 5), (4, 4)), ((4, 3), (4, 4))] : List CMove), ([(6, 4), (4, 4), (5, 5), (5, 3), (4, 4), (2, 4), (3, 5), (3, 3), (5, 5), (3, 5), (4, 6),
      (4, 4), (5, 3), (3, 3), (4, 4), (4, 2)] : List Coords), ([(5, 4), (3, 4), (4, 5), (4, 3)] : List Coords)) := by decide

theorem c4_fold2 :
    ([(6, 4), (4, 4), (5, 5), (5, 3), (4, 4), (2, 4), (3, 5), (3, 3), (5, 5), (3, 5), (4, 6),
      (4, 4), (5, 3), (3, 3), (4, 4), (4, 2)] : List Coords).foldl (edgeStep c4step (fun _ => false) (fun _ => false) (4, 4))
      (([((5, 4), (4, 4)), ((3, 4), (4, 4)), ((4, 5), (4, 4)), ((4, 3), (4, 4))] : List CMove), ([] : List Coords), ([(5, 4), (3, 4), (4, 5), (4, 3)] : List Coords))
    = (([((5, 4), (4, 4)), ((3, 4), (4, 4)), ((4, 5), (4, 4)), ((4, 3), (4, 4)), ((6, 4), (4, 4)),
      ((4, 4), (4, 4)), ((5, 5), (4, 4)), ((5, 3), (4, 4)), ((2, 4), (4, 4)), ((3, 5), (4, 4)),
      ((3, 3), (4, 4)), ((4, 6), (4, 4)), ((4, 2), (4, 4))] : List CMove), ([(7, 4), (5, 4), (6, 5), (6, 3), (5, 4), (3, 4), (4, 5), (4, 3), (6, 5), (4, 5), (5, 6),
      (5, 4), (6, 3), (4, 3), (5, 4), (5, 2), (3, 4), (1, 4), (2, 5), (2, 3), (4, 5), (2, 5),
      (3, 6), (3, 4), (4, 3), (2, 3), (3, 4), (3, 2), (5, 6), (3, 6), (4, 7), (4, 5), (5, 2),
      (3, 2), (4, 3), (4, 1)] : List Coords), ([(5, 4), (3, 4), (4, 5), (4, 3), (6, 4), (4, 4), (5, 5), (5, 3), (4, 4), (2, 4), (3, 5),
      (3, 3), (5, 5), (3, 5), (4, 6), (4, 4), (5, 3), (3, 3), (4, 4), (4, 2)] : List Coords)) := by decide

theorem c4_fold3 :
    ([(7, 4), (5, 4), (6, 5), (6, 3), (5, 4), (3, 4), (4, 5), (4, 3), (6, 5), (4, 5), (5, 6),
      (5, 4), (6, 3), (4, 3), (5, 4), (5, 2), (3, 4), (1, 4), (2, 5), (2, 3), (4, 5), (2, 5),
      (3, 6), (3, 4), (4, 3), (2, 3), (3, 4), (3, 2), (5, 6), (3, 6), (4, 7), (4, 5), (5, 2),
      (3, 2), (4, 3), (4, 1)] : List Coords).foldl (edgeStep c4step (fun _ => false) (fun _ => false) (4, 4))
      (([((5, 4), (4, 4)), ((3, 4), (4, 4)), ((4, 5), (4, 4)), ((4, 3), (4, 4)), ((6, 4), (4, 4)),
      ((4, 4), (4, 4)), ((5, 5), (4, 4)), ((5, 3), (4, 4)), ((2, 4), (4, 4)), ((3, 5), (4, 4)),
      ((3, 3), (4, 4)), ((4, 6), (4, 4)), ((4, 2), (4, 4))] : List CMove), ([] : List Coords), ([(5, 4), (3, 4), (4, 5), (4, 3), (6, 4), (4, 4), (5, 5), (5, 3), (4, 4), (2, 4), (3, 5),
      (3, 3), (5, 5), (3, 5), (4, 6), (4, 4), (5, 3), (3, 3), (4, 4), (4, 2)] : List Coords))
    = (([((5, 4), (4, 4)), ((3, 4), (4, 4)), ((4, 5), (4, 4)), ((4, 3), (4, 4)), ((6, 4), (4, 4)),
      ((4, 4), (4, 4)), ((5, 5), (4, 4)), ((5, 3), (4, 4)), ((2, 4), (4, 4)), ((3, 5), (4, 4)),
      ((3, 3), (4, 4)), ((4, 6), (4, 4)), ((4, 2), (4, 4)), ((7, 4), (4, 4)), ((6, 5), (4, 4)),
      ((6, 3), (4, 4)), ((5, 6), (4, 4)), ((5, 2), (4, 4)), ((1, 4), (4, 4)), ((2, 5), (4, 4)),
      ((2, 3), (4, 4)), ((3, 6), (4, 4)), ((3, 2), (4, 4)), ((4, 7), (4, 4)), ((4, 1), (4, 4))] : List CMove), ([(6, 4), (7, 5), (7, 3), (7, 5), (5, 5), (6, 6), (6, 4), (7, 3), (5, 3), (6, 4), (6, 2),
      (6, 6), (4, 6), (5, 7), (5, 5), (6, 2), (4, 2), (5, 3), (5, 1), (2, 4), (0, 4), (1, 5),
      (1, 3), (3, 5), (1, 5), (2, 6), (2, 4), (3, 3), (1, 3), (2, 4), (2, 2), (4, 6), (2, 6),
      (3, 7), (3, 5), (4, 2), (2, 2), (3, 3), (3, 1), (5, 7), (3, 7), (4, 6), (5, 1), (3, 1),
      (4, 2), (4, 0)] : List Coords), ([(5, 4), (3, 4), (4, 5), (4, 3), (6, 4), (4, 4), (5, 5), (5, 3), (4, 4), (2, 4), (3, 5),
      (3, 3), (5, 5), (3, 5), (4, 6), (4, 4), (5, 3), (3, 3), (4, 4), (4, 2), (7, 4), (5, 4),
      (6, 5), (6, 3), (5, 4), (3, 4), (4, 5), (4, 3), (6, 5), (4, 5), (5, 6), (5, 4), (6, 3),
      (4, 3), (5, 4), (5, 2), (3, 4), (1, 4), (2, 5), (2, 3), (4, 5), (2, 5), (3, 6), (3, 4),
      (4, 3), (2, 3), (3, 4), (3, 2), (5, 6), (3, 6), (4, 7), (4, 5), (5, 2), (3, 2), (4, 3),
      (4, 1)] : List Coords)) := by decide

theorem c4_fold4 :
    ([(6, 4), (7, 5), (7, 3), (7, 5), (5, 5), (6, 6), (6, 4), (7, 3), (5, 3), (6, 4), (6, 2),
      (6, 6), (4, 6), (5, 7), (5, 5), (6, 2), (4, 2), (5, 3), (5, 1), (2, 4), (0, 4), (1, 5),
      (1, 3), (3, 5), (1, 5), (2, 6), (2, 4), (3, 3), (1, 3), (2, 4), (2, 2), (4, 6), (2, 6),
      (3, 7), (3, 5), (4, 2), (2, 2), (3, 3), (3, 1), (5, 7), (3, 7), (4, 6), (5, 1), (3, 1),
      (4, 2), (4, 0)] : List Coords).foldl (edgeStep c4step (fun _ => false) (fun _ => false) (4, 4))
      (([((5, 4), (4, 4)), ((3, 4), (4, 4)), ((4, 5), (4, 4)), ((4, 3), (4, 4)), ((6, 4), (4, 4)),
      ((4, 4), (4, 4)), ((5, 5), (4, 4)), ((5, 3), (4, 4)), ((2, 4), (4, 4)), ((3, 5), (4, 4)),
      ((3, 3), (4, 4)), ((4, 6), (4, 4)), ((4, 2), (4, 4)), ((7, 4), (4, 4)), ((6, 5), (4, 4)),
      ((6, 3), (4, 4)), ((5, 6), (4, 4)), ((5, 2), (4, 4)), ((1, 4), (4, 4)), ((2, 5), (4, 4)),
      ((2, 3), (4, 4)), ((3, 6), (4, 4)), ((3, 2), (4, 4)), ((4, 7), (4, 4)), ((4, 1), (4, 4))] : List CMove), ([] : List Coords), ([(5, 4), (3, 4), (4, 5), (4, 3), (6, 4), (4, 4), (5, 5), (5, 3), (4, 4), (2, 4), (3, 5),
      (3, 3), (5, 5), (3, 5), (4, 6), (4, 4), (5, 3), (3, 3), (4, 4), (4, 2), (7, 4), (5, 4),
      (6, 5), (6, 3), (5, 4), (3, 4), (4, 5), (4, 3), (6, 5), (4, 5), (5, 6), (5, 4), (6, 3),
      (4, 3), (5, 4), (5, 2), (3, 4), (1, 4), (2, 5), (2, 3), (4, 5), (2, 5), (3, 6), (3, 4),
      (4, 3), (2, 3), (3, 4), (3, 2), (5, 6), (3, 6), (4, 7), (4, 5), (5, 2), (3, 2), (4, 3),
      (4, 1)] : List Coords))
    = (([((5, 4), (4, 4)), ((3, 4), (4, 4)), ((4, 5), (4, 4)), ((4, 3), (4, 4)), ((6, 4), (4, 4)),
      ((4, 4), (4, 4)), ((5, 5), (4, 4)), ((5, 3), (4, 4)), ((2, 4), (4, 4)), ((3, 5), (4, 4)),
      ((3, 3), (4, 4)), ((4, 6), (4, 4)), ((4, 2), (4, 4)), ((7, 4), (4, 4)), ((6, 5), (4, 4)),
      ((6, 3), (4, 4)), ((5, 6), (4, 4)), ((5, 2), (4, 4)), ((1, 4), (4, 4)), ((2, 5), (4, 4)),
      ((2, 3), (4, 4)), ((3, 6), (4, 4)), ((3, 2), (4, 4)), ((4, 7), (4, 4)), ((4, 1), (4, 4)),
      ((7, 5), (4, 4)), ((7, 3), (4, 4)), ((6, 6), (4, 4)), ((6, 2), (4, 4)), ((5, 7), (4, 4)),
      ((5, 1), (4, 4)), ((0, 4), (4, 4)), ((1, 5), (4, 4)), ((1, 3), (4, 4)), ((2, 6), (4, 4)),
      ((2, 2), (4, 4)), ((3, 7), (4, 4)), ((3, 1), (4, 4)), ((4, 0), (4, 4))] : List CMove), ([(6, 5), (7, 6), (7, 4), (6, 3), (7, 4), (7, 2), (7, 6), (5, 6), (6, 7), (6, 5), (7, 2),
      (5, 2), (6, 3), (6, 1), (6, 7), (4, 7), (5, 6), (6, 1), (4, 1), (5, 2), (5, 0), (1, 4),
      (0, 5), (0, 3), (2, 5), (0, 5), (1, 6), (1, 4), (2, 3), (0, 3), (1, 4), (1, 2), (3, 6),
      (1, 6), (2, 7), (2, 5), (3, 2), (1, 2), (2, 3), (2, 1), (4, 7), (2, 7), (3, 6), (4, 1),
      (2, 1), (3, 2), (3, 0), (5, 0), (3, 0), (4, 1)] : List Coords), ([(5, 4), (3, 4), (4, 5), (4, 3), (6, 4), (4, 4), (5, 5), (5, 3), (4, 4), (2, 4), (3, 5),
      (3, 3), (5, 5), (3, 5), (4, 6), (4, 4), (5, 3), (3, 3), (4, 4), (4, 2), (7, 4), (5, 4),
      (6, 5), (6, 3), (5, 4), (3, 4), (4, 5), (4, 3), (6, 5), (4, 5), (5, 6), (5, 4), (6, 3),
      (4, 3), (5, 4), (5, 2), (3, 4), (1, 4), (2, 5), (2, 3), (4, 5), (2, 5), (3, 6), (3, 4),
      (4, 3), (2, 3), (3, 4), (3, 2), (5, 6), (3, 6), (4, 7), (4, 5), (5, 2), (3, 2), (4, 3),
      (4, 1), (6, 4), (7, 5), (7, 3), (7, 5), (5, 5), (6, 6), (6, 4), (7, 3), (5, 3), (6, 4),
      (6, 2), (6, 6), (4, 6), (5, 7), (5, 5), (6, 2), (4, 2), (5, 3), (5, 1), (2, 4), (0, 4),
      (1, 5), (1, 3), (3, 5), (1, 5), (2, 6), (2, 4), (3, 3), (1, 3), (2, 4), (2, 2), (4, 6),
      (2, 6), (3, 7), (3, 5), (4, 2), (2, 2), (3, 3), (3, 1), (5, 7), (3, 7), (4, 6), (5, 1),
      (3, 1), (4, 2), (4, 0)] : List Coords)) := by decide

theorem c4_fold5 :
    ([(6, 5), (7, 6), (7, 4), (6, 3), (7, 4), (7, 2), (7, 6), (5, 6), (6, 7), (6, 5), (7, 2),
      (5, 2), (6, 3), (6, 1), (6, 7), (4, 7), (5, 6), (6, 1), (4, 1), (5, 2), (5, 0), (1, 4),
      (0, 5), (0, 3), (2, 5), (0, 5), (1, 6), (1, 4), (2, 3), (0, 3), (1, 4), (1, 2), (3, 6),
      (1, 6), (2, 7), (2, 5), (3, 2), (1, 2), (2, 3), (2, 1), (4, 7), (2, 7), (3, 6), (4, 1),
      (2, 1), (3, 2), (3, 0), (5, 0), (3, 0), (4, 1)] : List Coords).foldl (edgeStep c4step (fun _ => false) (fun _ => false) (4, 4))
      (([((5, 4), (4, 4)), ((3, 4), (4, 4)), ((4, 5), (4, 4)), ((4, 3), (4, 4)), ((6, 4), (4, 4)),
      ((4, 4), (4, 4)), ((5, 5), (4, 4)), ((5, 3), (4, 4)), ((2, 4), (4, 4)), ((3, 5), (4, 4)),
      ((3, 3), (4, 4)), ((4, 6), (4, 4)), ((4, 2), (4, 4)), ((7, 4), (4, 4)), ((6, 5), (4, 4)),
      ((6, 3), (4, 4)), ((5, 6), (4, 4)), ((5, 2), (4, 4)), ((1, 4), (4, 4)), ((2, 5), (4, 4)),
      ((2, 3), (4, 4)), ((3, 6), (4, 4)), ((3, 2), (4, 4)), ((4, 7), (4, 4)), ((4, 1), (4, 4)),
      ((7, 5), (4, 4)), ((7, 3), (4, 4)), ((6, 6), (4, 4)), ((6, 2), (4, 4)), ((5, 7), (4, 4)),
      ((5, 1), (4, 4)), ((0, 4), (4, 4)), ((1, 5), (4, 4)), ((1, 3), (4, 4)), ((2, 6), (4, 4)),
      ((2, 2), (4, 4)), ((3, 7), (4, 4)), ((3, 1), (4, 4)), ((4, 0), (4, 4))] : List CMove), ([] : List Coords), ([(5, 4), (3, 4), (4, 5), (4, 3), (6, 4), (4, 4), (5, 5), (5, 3), (4, 4), (2, 4), (3, 5),
      (3, 3), (5, 5), (3, 5), (4, 6), (4, 4), (5, 3), (3, 3), (4, 4), (4, 2), (7, 4), (5, 4),
      (6, 5), (6, 3), (5, 4), (3, 4), (4, 5), (4, 3), (6, 5), (4, 5), (5, 6), (5, 4), (6, 3),
      (4, 3), (5, 4), (5, 2), (3, 4), (1, 4), (2, 5), (2, 3), (4, 5), (2, 5), (3, 6), (3, 4),
      (4, 3), (2, 3), (3, 4), (3, 2), (5, 6), (3, 6), (4, 7), (4, 5), (5, 2), (3, 2), (4, 3),
      (4, 1), (6, 4), (7, 5), (7, 3), (7, 5), (5, 5), (6, 6), (6, 4), (7, 3), (5, 3), (6, 4),
      (6, 2), (6, 6), (4, 6), (5, 7), (5, 5), (6, 2), (4, 2), (5, 3), (5, 1), (2, 4), (0, 4),
      (1, 5), (1, 3), (3, 5), (1, 5), (2, 6), (2, 4), (3, 3), (1, 3), (2, 4), (2, 2), (4, 6),
      (2, 6), (3, 7), (3, 5), (4, 2), (2, 2), (3, 3), (3, 1), (5, 7), (3, 7), (4, 6), (5, 1),
      (3, 1), (4, 2), (4, 0)] : List Coords))
    = (([((5, 4), (4, 4)), ((3, 4), (4, 4)), ((4, 5), (4, 4)), ((4, 3), (4, 4)), ((6, 4), (4, 4)),
      ((4, 4), (4, 4)), ((5, 5), (4, 4)), ((5, 3), (4, 4)), ((2, 4), (4, 4)), ((3, 5), (4, 4)),
      ((3, 3), (4, 4)), ((4, 6), (4, 4)), ((4, 2), (4, 4)), ((7, 4), (4, 4)), ((6, 5), (4, 4)),
      ((6, 3), (4, 4)), ((5, 6), (4, 4)), ((5, 2), (4, 4)), ((1, 4), (4, 4)), ((2, 5), (4, 4)),
      ((2, 3), (4, 4)), ((3, 6), (4, 4)), ((3, 2), (4, 4)), ((4, 7), (4, 4)), ((4, 1), (4, 4)),
      ((7, 5), (4, 4)), ((7, 3), (4, 4)), ((6, 6), (4, 4)), ((6, 2), (4, 4)), ((5, 7), (4, 4)),
      ((5, 1), (4, 4)), ((0, 4), (4, 4)), ((1, 5), (4, 4)), ((1, 3), (4, 4)), ((2, 6), (4, 4)),
      ((2, 2), (4, 4)), ((3, 7), (4, 4)), ((3, 1), (4, 4)), ((4, 0), (4, 4)), ((7, 6), (4, 4)),
      ((7, 2), (4, 4)), ((6, 7), (4, 4)), ((6, 1), (4, 4)), ((5, 0), (4, 4)), ((0, 5), (4, 4)),
      ((0, 3), (4, 4)), ((1, 6), (4, 4)), ((1, 2), (4, 4)), ((2, 7), (4, 4)), ((2, 1), (4, 4)),
      ((3, 0), (4, 4))] : List CMove), ([(6, 6), (7, 7), (7, 5), (6, 2), (7, 3), (7, 1), (7, 7), (5, 7), (6, 6), (7, 1), (5, 1),
      (6, 2), (6, 0), (6, 0), (4, 0), (5, 1), (1, 5), (0, 6), (0, 4), (1, 3), (0, 4), (0, 2),
      (2, 6), (0, 6), (1, 7), (1, 5), (2, 2), (0, 2), (1, 3), (1, 1), (3, 7), (1, 7), (2, 6),
      (3, 1), (1, 1), (2, 2), (2, 0), (4, 0), (2, 0), (3, 1)] : List Coords), ([(5, 4), (3, 4), (4, 5), (4, 3), (6, 4), (4, 4), (5, 5), (5, 3), (4, 4), (2, 4), (3, 5),
      (3, 3), (5, 5), (3, 5), (4, 6), (4, 4), (5, 3), (3, 3), (4, 4), (4, 2), (7, 4), (5, 4),
      (6, 5), (6, 3), (5, 4), (3, 4), (4, 5), (4, 3), (6, 5), (4, 5), (5, 6), (5, 4), (6, 3),
      (4, 3), (5, 4), (5, 2), (3, 4), (1, 4), (2, 5), (2, 3), (4, 5), (2, 5), (3, 6), (3, 4),
      (4, 3), (2, 3), (3, 4), (3, 2), (5, 6), (3, 6), (4, 7), (4, 5), (5, 2), (3, 2), (4, 3),
      (4, 1), (6, 4), (7, 5), (7, 3), (7, 5), (5, 5), (6, 6), (6, 4), (7, 3), (5, 3), (6, 4),
      (6, 2), (6, 6), (4, 6), (5, 7), (5, 5), (6, 2), (4, 2), (5, 3), (5, 1), (2, 4), (0, 4),
      (1, 5), (1, 3), (3, 5), (1, 5), (2, 6), (2, 4), (3, 3), (1, 3), (2, 4), (2, 2), (4, 6),
      (2, 6), (3, 7), (3, 5), (4, 2), (2, 2), (3, 3), (3, 1), (5, 7), (3, 7), (4, 6), (5, 1),
      (3, 1), (4, 2), (4, 0), (6, 5), (7, 6), (7, 4), (6, 3), (7, 4), (7, 2), (7, 6), (5, 6),
      (6, 7), (6, 5), (7, 2), (5, 2), (6, 3), (6, 1), (6, 7), (4, 7), (5, 6), (6, 1), (4, 1),
      (5, 2), (5, 0), (1, 4), (0, 5), (0, 3), (2, 5), (0, 5), (1, 6), (1, 4), (2, 3), (0, 3),
      (1, 4), (1, 2), (3, 6), (1, 6), (2, 7), (2, 5), (3, 2), (1, 2), (2, 3), (2, 1), (4, 7),
      (2, 7), (3, 6), (4, 1), (2, 1), (3, 2), (3, 0), (5, 0), (3, 0), (4, 1)] : List Coords)) := by decide

theorem c4_fold6 :
    ([(6, 6), (7, 7), (7, 5), (6, 2), (7, 3), (7, 1), (7, 7), (5, 7), (6, 6), (7, 1), (5, 1),
      (6, 2), (6, 0), (6, 0), (4, 0), (5, 1), (1, 5), (0, 6), (0, 4), (1, 3), (0, 4), (0, 2),
      (2, 6), (0, 6), (1, 7), (1, 5), (2, 2), (0, 2), (1, 3), (1, 1), (3, 7), (1, 7), (2, 6),
      (3, 1), (1, 1), (2, 2), (2, 0), (4, 0), (2, 0), (3, 1)] : List Coords).foldl (edgeStep c4step (fun _ => false) (fun _ => false) (4, 4))
      (([((5, 4), (4, 4)), ((3, 4), (4, 4)), ((4, 5), (4, 4)), ((4, 3), (4, 4)), ((6, 4), (4, 4)),
      ((4, 4), (4, 4)), ((5, 5), (4, 4)), ((5, 3), (4, 4)), ((2, 4), (4, 4)), ((3, 5), (4, 4)),
      ((3, 3), (4, 4)), ((4, 6), (4, 4)), ((4, 2), (4, 4)), ((7, 4), (4, 4)), ((6, 5), (4, 4)),
      ((6, 3), (4, 4)), ((5, 6), (4, 4)), ((5, 2), (4, 4)), ((1, 4), (4, 4)), ((2, 5), (4, 4)),
      ((2, 3), (4, 4)), ((3, 6), (4, 4)), ((3, 2), (4, 4)), ((4, 7), (4, 4)), ((4, 1), (4, 4)),
      ((7, 5), (4, 4)), ((7, 3), (4, 4)), ((6, 6), (4, 4)), ((6, 2), (4, 4)), ((5, 7), (4, 4)),
      ((5, 1), (4, 4)), ((0, 4), (4, 4)), ((1, 5), (4, 4)), ((1, 3), (4, 4)), ((2, 6), (4, 4)),
      ((2, 2), (4, 4)), ((3, 7), (4, 4)), ((3, 1), (4, 4)), ((4, 0), (4, 4)), ((7, 6), (4, 4)),
      ((7, 2), (4, 4)), ((6, 7), (4, 4)), ((6, 1), (4, 4)), ((5, 0), (4, 4)), ((0, 5), (4, 4)),
      ((0, 3), (4, 4)), ((1, 6), (4, 4)), ((1, 2), (4, 4)), ((2, 7), (4, 4)), ((2, 1), (4, 4)),
      ((3, 0), (4, 4))] : List CMove), ([] : List Coords), ([(5, 4), (3, 4), (4, 5), (4, 3), (6, 4), (4, 4), (5, 5), (5, 3), (4, 4), (2, 4), (3, 5),
      (3, 3), (5, 5), (3, 5), (4, 6), (4, 4), (5, 3), (3, 3), (4, 4), (4, 2), (7, 4), (5, 4),
      (6, 5), (6, 3), (5, 4), (3, 4), (4, 5), (4, 3), (6, 5), (4, 5), (5, 6), (5, 4), (6, 3),
      (4, 3), (5, 4), (5, 2), (3, 4), (1, 4), (2, 5), (2, 3), (4, 5), (2, 5), (3, 6), (3, 4),
      (4, 3), (2, 3), (3, 4), (3, 2), (5, 6), (3, 6), (4, 7), (4, 5), (5, 2), (3, 2), (4, 3),
      (4, 1), (6, 4), (7, 5), (7, 3), (7, 5), (5, 5), (6, 6), (6, 4), (7, 3), (5, 3), (6, 4),
      (6, 2), (6, 6), (4, 6), (5, 7), (5, 5), (6, 2), (4, 2), (5, 3), (5, 1), (2, 4), (0, 4),
      (1, 5), (1, 3), (3, 5), (1, 5), (2, 6), (2, 4), (3, 3), (1, 3), (2, 4), (2, 2), (4, 6),
      (2, 6), (3, 7), (3, 5), (4, 2), (2, 2), (3, 3), (3, 1), (5, 7), (3, 7), (4, 6), (5, 1),
      (3, 1), (4, 2), (4, 0), (6, 5), (7, 6), (7, 4), (6, 3), (7, 4), (7, 2), (7, 6), (5, 6),
      (6, 7), (6, 5), (7, 2), (5, 2), (6, 3), (6, 1), (6, 7), (4, 7), (5, 6), (6, 1), (4, 1),
      (5, 2), (5, 0), (1, 4), (0, 5), (0, 3), (2, 5), (0, 5), (1, 6), (1, 4), (2, 3), (0, 3),
      (1, 4), (1, 2), (3, 6), (1, 6), (2, 7), (2, 5), (3, 2), (1, 2), (2, 3), (2, 1), (4, 7),
      (2, 7), (3, 6), (4, 1), (2, 1), (3, 2), (3, 0), (5, 0), (3, 0), (4, 1)] : List Coords))
    = (([((5, 4), (4, 4)), ((3, 4), (4, 4)), ((4, 5), (4, 4)), ((4, 3), (4, 4)), ((6, 4), (4, 4)),
      ((4, 4), (4, 4)), ((5, 5), (4, 4)), ((5, 3), (4, 4)), ((2, 4), (4, 4)), ((3, 5), (4, 4)),
      ((3, 3), (4, 4)), ((4, 6), (4, 4)), ((4, 2), (4, 4)), ((7, 4), (4, 4)), ((6, 5), (4, 4)),
      ((6, 3), (4, 4)), ((5, 6), (4, 4)), ((5, 2), (4, 4)), ((1, 4), (4, 4)), ((2, 5), (4, 4)),
      ((2, 3), (4, 4)), ((3, 6), (4, 4)), ((3, 2), (4, 4)), ((4, 7), (4, 4)), ((4, 1), (4, 4)),
      ((7, 5), (4, 4)), ((7, 3), (4, 4)), ((6, 6), (4, 4)), ((6, 2), (4, 4)), ((5, 7), (4, 4)),
      ((5, 1), (4, 4)), ((0, 4), (4, 4)), ((1, 5), (4, 4)), ((1, 3), (4, 4)), ((2, 6), (4, 4)),
      ((2, 2), (4, 4)), ((3, 7), (4, 4)), ((3, 1), (4, 4)), ((4, 0), (4, 4)), ((7, 6), (4, 4)),
      ((7, 2), (4, 4)), ((6, 7), (4, 4)), ((6, 1), (4, 4)), ((5, 0), (4, 4)), ((0, 5), (4, 4)),
      ((0, 3), (4, 4)), ((1, 6), (4, 4)), ((1, 2), (4, 4)), ((2, 7), (4, 4)), ((2, 1), (4, 4)),
      ((3, 0), (4, 4)), ((7, 7), (4, 4)), ((7, 1), (4, 4)), ((6, 0), (4, 4)), ((0, 6), (4, 4)),
      ((0, 2), (4, 4)), ((1, 7), (4, 4)), ((1, 1), (4, 4)), ((2, 0), (4, 4))] : List CMove), ([(6, 7), (7, 6), (6, 1), (7, 2), (7, 0), (7, 0), (5, 0), (6, 1), (1, 6), (0, 7), (0, 5),
      (1, 2), (0, 3), (0, 1), (2, 7), (0, 7), (1, 6), (2, 1), (0, 1), (1, 2), (1, 0), (3, 0),
      (1, 0), (2, 1)] : List Coords), ([(5, 4), (3, 4), (4, 5), (4, 3), (6, 4), (4, 4), (5, 5), (5, 3), (4, 4), (2, 4), (3, 5),
      (3, 3), (5, 5), (3, 5), (4, 6), (4, 4), (5, 3), (3, 3), (4, 4), (4, 2), (7, 4), (5, 4),
      (6, 5), (6, 3), (5, 4), (3, 4), (4, 5), (4, 3), (6, 5), (4, 5), (5, 6), (5, 4), (6, 3),
      (4, 3), (5, 4), (5, 2), (3, 4), (1, 4), (2, 5), (2, 3), (4, 5), (2, 5), (3, 6), (3, 4),
      (4, 3), (2, 3), (3, 4), (3, 2), (5, 6), (3, 6), (4, 7), (4, 5), (5, 2), (3, 2), (4, 3),
      (4, 1), (6, 4), (7, 5), (7, 3), (7, 5), (5, 5), (6, 6), (6, 4), (7, 3), (5, 3), (6, 4),
      (6, 2), (6, 6), (4, 6), (5, 7), (5, 5), (6, 2), (4, 2), (5, 3), (5, 1), (2, 4), (0, 4),
      (1, 5), (1, 3), (3, 5), (1, 5), (2, 6), (2, 4), (3, 3), (1, 3), (2, 4), (2, 2), (4, 6),
      (2, 6), (3, 7), (3, 5), (4, 2), (2, 2), (3, 3), (3, 1), (5, 7), (3, 7), (4, 6), (5, 1),
      (3, 1), (4, 2), (4, 0), (6, 5), (7, 6), (7, 4), (6, 3), (7, 4), (7, 2), (7, 6), (5, 6),
      (6, 7), (6, 5), (7, 2), (5, 2), (6, 3), (6, 1), (6, 7), (4, 7), (5, 6), (6, 1), (4, 1),
      (5, 2), (5, 0), (1, 4), (0, 5), (0, 3), (2, 5), (0, 5), (1, 6), (1, 4), (2, 3), (0, 3),
      (1, 4), (1, 2), (3, 6), (1, 6), (2, 7), (2, 5), (3, 2), (1, 2), (2, 3), (2, 1), (4, 7),
      (2, 7), (3, 6), (4, 1), (2, 1), (3, 2), (3, 0), (5, 0), (3, 0), (4, 1), (6, 6), (7, 7),
      (7, 5), (6, 2), (7, 3), (7, 1), (7, 7), (5, 7), (6, 6), (7, 1), (5, 1), (6, 2), (6, 0),
      (6, 0), (4, 0), (5, 1), (1, 5), (0, 6), (0, 4), (1, 3), (0, 4), (0, 2), (2, 6), (0, 6),
      (1, 7), (1, 5), (2, 2), (0, 2), (1, 3), (1, 1), (3, 7), (1, 7), (2, 6), (3, 1), (1, 1),
      (2, 2), (2, 0), (4, 0), (2, 0), (3, 1)] : List Coords)) := by decide

theorem c4_fold7 :
    ([(6, 7), (7, 6), (6, 1), (7, 2), (7, 0), (7, 0), (5, 0), (6, 1), (1, 6), (0, 7), (0, 5),
      (1, 2), (0, 3), (0, 1), (2, 7), (0, 7), (1, 6), (2, 1), (0, 1), (1, 2), (1, 0), (3, 0),
      (1, 0), (2, 1)] : List Coords).foldl (edgeStep c4step (fun _ => false) (fun _ => false) (4, 4))
      (([((5, 4), (4, 4)), ((3, 4), (4, 4)), ((4, 5), (4, 4)), ((4, 3), (4, 4)), ((6, 4), (4, 4)),
      ((4, 4), (4, 4)), ((5, 5), (4, 4)), ((5, 3), (4, 4)), ((2, 4), (4, 4)), ((3, 5), (4, 4)),
      ((3, 3), (4, 4)), ((4, 6), (4, 4)), ((4, 2), (4, 4)), ((7, 4), (4, 4)), ((6, 5), (4, 4)),
      ((6, 3), (4, 4)), ((5, 6), (4, 4)), ((5, 2), (4, 4)), ((1, 4), (4, 4)), ((2, 5), (4, 4)),
      ((2, 3), (4, 4)), ((3, 6), (4, 4)), ((3, 2), (4, 4)), ((4, 7), (4, 4)), ((4, 1), (4, 4)),
      ((7, 5), (4, 4)), ((7, 3), (4, 4)), ((6, 6), (4, 4)), ((6, 2), (4, 4)), ((5, 7), (4, 4)),
      ((5, 1), (4, 4)), ((0, 4), (4, 4)), ((1, 5), (4, 4)), ((1, 3), (4, 4)), ((2, 6), (4, 4)),
      ((2, 2), (4, 4)), ((3, 7), (4, 4)), ((3, 1), (4, 4)), ((4, 0), (4, 4)), ((7, 6), (4, 4)),
      ((7, 2), (4, 4)), ((6, 7), (4, 4)), ((6, 1), (4, 4)), ((5, 0), (4, 4)), ((0, 5), (4, 4)),
      ((0, 3), (4, 4)), ((1, 6), (4, 4)), ((1, 2), (4, 4)), ((2, 7), (4, 4)), ((2, 1), (4, 4)),
      ((3, 0), (4, 4)), ((7, 7), (4, 4)), ((7, 1), (4, 4)), ((6, 0), (4, 4)), ((0, 6), (4, 4)),
      ((0, 2), (4, 4)), ((1, 7), (4, 4)), ((1, 1), (4, 4)), ((2, 0), (4, 4))] : List CMove), ([] : List Coords), ([(5, 4), (3, 4), (4, 5), (4, 3), (6, 4), (4, 4), (5, 5), (5, 3), (4, 4), (2, 4), (3, 5),
      (3, 3), (5, 5), (3, 5), (4, 6), (4, 4), (5, 3), (3, 3), (4, 4), (4, 2), (7, 4), (5, 4),
      (6, 5), (6, 3), (5, 4), (3, 4), (4, 5), (4, 3), (6, 5), (4, 5), (5, 6), (5, 4), (6, 3),
      (4, 3), (5, 4), (5, 2), (3, 4), (1, 4), (2, 5), (2, 3), (4, 5), (2, 5), (3, 6), (3, 4),
      (4, 3), (2, 3), (3, 4), (3, 2), (5, 6), (3, 6), (4, 7), (4, 5), (5, 2), (3, 2), (4, 3),
      (4, 1), (6, 4), (7, 5), (7, 3), (7, 5), (5, 5), (6, 6), (6, 4), (7, 3), (5, 3), (6, 4),
      (6, 2), (6, 6), (4, 6), (5, 7), (5, 5), (6, 2), (4, 2), (5, 3), (5, 1), (2, 4), (0, 4),
      (1, 5), (1, 3), (3, 5), (1, 5), (2, 6), (2, 4), (3, 3), (1, 3), (2, 4), (2, 2), (4, 6),
      (2, 6), (3, 7), (3, 5), (4, 2), (2, 2), (3, 3), (3, 1), (5, 7), (3, 7), (4, 6), (5, 1),
      (3, 1), (4, 2), (4, 0), (6, 5), (7, 6), (7, 4), (6, 3), (7, 4), (7, 2), (7, 6), (5, 6),
      (6, 7), (6, 5), (7, 2), (5, 2), (6, 3), (6, 1), (6, 7), (4, 7), (5, 6), (6, 1), (4, 1),
      (5, 2), (5, 0), (1, 4), (0, 5), (0, 3), (2, 5), (0, 5), (1, 6), (1, 4), (2, 3), (0, 3),
      (1, 4), (1, 2), (3, 6), (1, 6), (2, 7), (2, 5), (3, 2), (1, 2), (2, 3), (2, 1), (4, 7),
      (2, 7), (3, 6), (4, 1), (2, 1), (3, 2), (3, 0), (5, 0), (3, 0), (4, 1), (6, 6), (7, 7),
      (7, 5), (6, 2), (7, 3), (7, 1), (7, 7), (5, 7), (6, 6), (7, 1), (5, 1), (6, 2), (6, 0),
      (6, 0), (4, 0), (5, 1), (1, 5), (0, 6), (0, 4), (1, 3), (0, 4), (0, 2), (2, 6), (0, 6),
      (1, 7), (1, 5), (2, 2), (0, 2), (1, 3), (1, 1), (3, 7), (1, 7), (2, 6), (3, 1), (1, 1),
      (2, 2), (2, 0), (4, 0), (2, 0), (3, 1)] : List Coords))
    = (([((5, 4), (4, 4)), ((3, 4), (4, 4)), ((4, 5), (4, 4)), ((4, 3), (4, 4)), ((6, 4), (4, 4)),
      ((4, 4), (4, 4)), ((5, 5), (4, 4)), ((5, 3), (4, 4)), ((2, 4), (4, 4)), ((3, 5), (4, 4)),
      ((3, 3), (4, 4)), ((4, 6), (4, 4)), ((4, 2), (4, 4)), ((7, 4), (4, 4)), ((6, 5), (4, 4)),
      ((6, 3), (4, 4)), ((5, 6), (4, 4)), ((5, 2), (4, 4)), ((1, 4), (4, 4)), ((2, 5), (4, 4)),
      ((2, 3), (4, 4)), ((3, 6), (4, 4)), ((3, 2), (4, 4)), ((4, 7), (4, 4)), ((4, 1), (4, 4)),
      ((7, 5), (4, 4)), ((7, 3), (4, 4)), ((6, 6), (4, 4)), ((6, 2), (4, 4)), ((5, 7), (4, 4)),
      ((5, 1), (4, 4)), ((0, 4), (4, 4)), ((1, 5), (4, 4)), ((1, 3), (4, 4)), ((2, 6), (4, 4)),
      ((2, 2), (4, 4)), ((3, 7), (4, 4)), ((3, 1), (4, 4)), ((4, 0), (4, 4)), ((7, 6), (4, 4)),
      ((7, 2), (4, 4)), ((6, 7), (4, 4)), ((6, 1), (4, 4)), ((5, 0), (4, 4)), ((0, 5), (4, 4)),
      ((0, 3), (4, 4)), ((1, 6), (4, 4)), ((1, 2), (4, 4)), ((2, 7), (4, 4)), ((2, 1), (4, 4)),
      ((3, 0), (4, 4)), ((7, 7), (4, 4)), ((7, 1), (4, 4)), ((6, 0), (4, 4)), ((0, 6), (4, 4)),
      ((0, 2), (4, 4)), ((1, 7), (4, 4)), ((1, 1), (4, 4)), ((2, 0), (4, 4)), ((7, 0), (4, 4)),
      ((0, 7), (4, 4)), ((0, 1), (4, 4)), ((1, 0), (4, 4))] : List CMove), ([(6, 0), (7, 1), (1, 7), (0, 6), (1, 1), (0, 2), (0, 0), (2, 0), (0, 0), (1, 1)] : List Coords), ([(5, 4), (3, 4), (4, 5), (4, 3), (6, 4), (4, 4), (5, 5), (5, 3), (4, 4), (2, 4), (3, 5),
      (3, 3), (5, 5), (3, 5), (4, 6), (4, 4), (5, 3), (3, 3), (4, 4), (4, 2), (7, 4), (5, 4),
      (6, 5), (6, 3), (5, 4), (3, 4), (4, 5), (4, 3), (6, 5), (4, 5), (5, 6), (5, 4), (6, 3),
      (4, 3), (5, 4), (5, 2), (3, 4), (1, 4), (2, 5), (2, 3), (4, 5), (2, 5), (3, 6), (3, 4),
      (4, 3), (2, 3), (3, 4), (3, 2), (5, 6), (3, 6), (4, 7), (4, 5), (5, 2), (3, 2), (4, 3),
      (4, 1), (6, 4), (7, 5), (7, 3), (7, 5), (5, 5), (6, 6), (6, 4), (7, 3), (5, 3), (6, 4),
      (6, 2), (6, 6), (4, 6), (5, 7), (5, 5), (6, 2), (4, 2), (5, 3), (5, 1), (2, 4), (0, 4),
      (1, 5), (1, 3), (3, 5), (1, 5), (2, 6), (2, 4), (3, 3), (1, 3), (2, 4), (2, 2), (4, 6),
      (2, 6), (3, 7), (3, 5), (4, 2), (2, 2), (3, 3), (3, 1), (5, 7), (3, 7), (4, 6), (5, 1),
      (3, 1), (4, 2), (4, 0), (6, 5), (7, 6), (7, 4), (6, 3), (7, 4), (7, 2), (7, 6), (5, 6),
      (6, 7), (6, 5), (7, 2), (5, 2), (6, 3), (6, 1), (6, 7), (4, 7), (5, 6), (6, 1), (4, 1),
      (5, 2), (5, 0), (1, 4), (0, 5), (0, 3), (2, 5), (0, 5), (1, 6), (1, 4), (2, 3), (0, 3),
      (1, 4), (1, 2), (3, 6), (1, 6), (2, 7), (2, 5), (3, 2), (1, 2), (2, 3), (2, 1), (4, 7),
      (2, 7), (3, 6), (4, 1), (2, 1), (3, 2), (3, 0), (5, 0), (3, 0), (4, 1), (6, 6), (7, 7),
      (7, 5), (6, 2), (7, 3), (7, 1), (7, 7), (5, 7), (6, 6), (7, 1), (5, 1), (6, 2), (6, 0),
      (6, 0), (4, 0), (5, 1), (1, 5), (0, 6), (0, 4), (1, 3), (0, 4), (0, 2), (2, 6), (0, 6),
      (1, 7), (1, 5), (2, 2), (0, 2), (1, 3), (1, 1), (3, 7), (1, 7), (2, 6), (3, 1), (1, 1),
      (2, 2), (2, 0), (4, 0), (2, 0), (3, 1), (6, 7), (7, 6), (6, 1), (7, 2), (7, 0), (7, 0),
      (5, 0), (6, 1), (1, 6), (0, 7), (0, 5), (1, 2), (0, 3), (0, 1), (2, 7), (0, 7), (1, 6),
      (2, 1), (0, 1), (1, 2), (1, 0), (3, 0), (1, 0), (2, 1)] : List Coords)) := by decide

theorem c4_fold8 :
    ([(6, 0), (7, 1), (1, 7), (0, 6), (1, 1), (0, 2), (0, 0), (2, 0), (0, 0), (1, 1)] : List Coords).foldl (edgeStep c4step (fun _ => false) (fun _ => false) (4, 4))
      (([((5, 4), (4, 4)), ((3, 4), (4, 4)), ((4, 5), (4, 4)), ((4, 3), (4, 4)), ((6, 4), (4, 4)),
      ((4, 4), (4, 4)), ((5, 5), (4, 4)), ((5, 3), (4, 4)), ((2, 4), (4, 4)), ((3, 5), (4, 4)),
      ((3, 3), (4, 4)), ((4, 6), (4, 4)), ((4, 2), (4, 4)), ((7, 4), (4, 4)), ((6, 5), (4, 4)),
      ((6, 3), (4, 4)), ((5, 6), (4, 4)), ((5, 2), (4, 4)), ((1, 4), (4, 4)), ((2, 5), (4, 4)),
      ((2, 3), (4, 4)), ((3, 6), (4, 4)), ((3, 2), (4, 4)), ((4, 7), (4, 4)), ((4, 1), (4, 4)),
      ((7, 5), (4, 4)), ((7, 3), (4, 4)), ((6, 6), (4, 4)), ((6, 2), (4, 4)), ((5, 7), (4, 4)),
      ((5, 1), (4, 4)), ((0, 4), (4, 4)), ((1, 5), (4, 4)), ((1, 3), (4, 4)), ((2, 6), (4, 4)),
      ((2, 2), (4, 4)), ((3, 7), (4, 4)), ((3, 1), (4, 4)), ((4, 0), (4, 4)), ((7, 6), (4, 4)),
      ((7, 2), (4, 4)), ((6, 7), (4, 4)), ((6, 1), (4, 4)), ((5, 0), (4, 4)), ((0, 5), (4, 4)),
      ((0, 3), (4, 4)), ((1, 6), (4, 4)), ((1, 2), (4, 4)), ((2, 7), (4, 4)), ((2, 1), (4, 4)),
      ((3, 0), (4, 4)), ((7, 7), (4, 4)), ((7, 1), (4, 4)), ((6, 0), (4, 4)), ((0, 6), (4, 4)),
      ((0, 2), (4, 4)), ((1, 7), (4, 4)), ((1, 1), (4, 4)), ((2, 0), (4, 4)), ((7, 0), (4, 4)),
      ((0, 7), (4, 4)), ((0, 1), (4, 4)), ((1, 0), (4, 4))] : List CMove), ([] : List Coords), ([(5, 4), (3, 4), (4, 5), (4, 3), (6, 4), (4, 4), (5, 5), (5, 3), (4, 4), (2, 4), (3, 5),
      (3, 3), (5, 5), (3, 5), (4, 6), (4, 4), (5, 3), (3, 3), (4, 4), (4, 2), (7, 4), (5, 4),
      (6, 5), (6, 3), (5, 4), (3, 4), (4, 5), (4, 3), (6, 5), (4, 5), (5, 6), (5, 4), (6, 3),
      (4, 3), (5, 4), (5, 2), (3, 4), (1, 4), (2, 5), (2, 3), (4, 5), (2, 5), (3, 6), (3, 4),
      (4, 3), (2, 3), (3, 4), (3, 2), (5, 6), (3, 6), (4, 7), (4, 5), (5, 2), (3, 2), (4, 3),
      (4, 1), (6, 4), (7, 5), (7, 3), (7, 5), (5, 5), (6, 6), (6, 4), (7, 3), (5, 3), (6, 4),
      (6, 2), (6, 6), (4, 6), (5, 7), (5, 5), (6, 2), (4, 2), (5, 3), (5, 1), (2, 4), (0, 4),
      (1, 5), (1, 3), (3, 5), (1, 5), (2, 6), (2, 4), (3, 3), (1, 3), (2, 4), (2, 2), (4, 6),
      (2, 6), (3, 7), (3, 5), (4, 2), (2, 2), (3, 3), (3, 1), (5, 7), (3, 7), (4, 6), (5, 1),
      (3, 1), (4, 2), (4, 0), (6, 5), (7, 6), (7, 4), (6, 3), (7, 4), (7, 2), (7, 6), (5, 6),
      (6, 7), (6, 5), (7, 2), (5, 2), (6, 3), (6, 1), (6, 7), (4, 7), (5, 6), (6, 1), (4, 1),
      (5, 2), (5, 0), (1, 4), (0, 5), (0, 3), (2, 5), (0, 5), (1, 6), (1, 4), (2, 3), (0, 3),
      (1, 4), (1, 2), (3, 6), (1, 6), (2, 7), (2, 5), (3, 2), (1, 2), (2, 3), (2, 1), (4, 7),
      (2, 7), (3, 6), (4, 1), (2, 1), (3, 2), (3, 0), (5, 0), (3, 0), (4, 1), (6, 6), (7, 7),
      (7, 5), (6, 2), (7, 3), (7, 1), (7, 7), (5, 7), (6, 6), (7, 1), (5, 1), (6, 2), (6, 0),
      (6, 0), (4, 0), (5, 1), (1, 5), (0, 6), (0, 4), (1, 3), (0, 4), (0, 2), (2, 6), (0, 6),
      (1, 7), (1, 5), (2, 2), (0, 2), (1, 3), (1, 1), (3, 7), (1, 7), (2, 6), (3, 1), (1, 1),
      (2, 2), (2, 0), (4, 0), (2, 0), (3, 1), (6, 7), (7, 6), (6, 1), (7, 2), (7, 0), (7, 0),
      (5, 0), (6, 1), (1, 6), (0, 7), (0, 5), (1, 2), (0, 3), (0, 1), (2, 7), (0, 7), (1, 6),
      (2, 1), (0, 1), (1, 2), (1, 0), (3, 0), (1, 0), (2, 1)] : List Coords))
    = (([((5, 4), (4, 4)), ((3, 4), (4, 4)), ((4, 5), (4, 4)), ((4, 3), (4, 4)), ((6, 4), (4, 4)),
      ((4, 4), (4, 4)), ((5, 5), (4, 4)), ((5, 3), (4, 4)), ((2, 4), (4, 4)), ((3, 5), (4, 4)),
      ((3, 3), (4, 4)), ((4, 6), (4, 4)), ((4, 2), (4, 4)), ((7, 4), (4, 4)), ((6, 5), (4, 4)),
      ((6, 3), (4, 4)), ((5, 6), (4, 4)), ((5, 2), (4, 4)), ((1, 4), (4, 4)), ((2, 5), (4, 4)),
      ((2, 3), (4, 4)), ((3, 6), (4, 4)), ((3, 2), (4, 4)), ((4, 7), (4, 4)), ((4, 1), (4, 4)),
      ((7, 5), (4, 4)), ((7, 3), (4, 4)), ((6, 6), (4, 4)), ((6, 2), (4, 4)), ((5, 7), (4, 4)),
      ((5, 1), (4, 4)), ((0, 4), (4, 4)), ((1, 5), (4, 4)), ((1, 3), (4, 4)), ((2, 6), (4, 4)),
      ((2, 2), (4, 4)), ((3, 7), (4, 4)), ((3, 1), (4, 4)), ((4, 0), (4, 4)), ((7, 6), (4, 4)),
      ((7, 2), (4, 4)), ((6, 7), (4, 4)), ((6, 1), (4, 4)), ((5, 0), (4, 4)), ((0, 5), (4, 4)),
      ((0, 3), (4, 4)), ((1, 6), (4, 4)), ((1, 2), (4, 4)), ((2, 7), (4, 4)), ((2, 1), (4, 4)),
      ((3, 0), (4, 4)), ((7, 7), (4, 4)), ((7, 1), (4, 4)), ((6, 0), (4, 4)), ((0, 6), (4, 4)),
      ((0, 2), (4, 4)), ((1, 7), (4, 4)), ((1, 1), (4, 4)), ((2, 0), (4, 4)), ((7, 0), (4, 4)),
      ((0, 7), (4, 4)), ((0, 1), (4, 4)), ((1, 0), (4, 4)), ((0, 0), (4, 4))] : List CMove), ([(1, 0), (0, 1)] : List Coords), ([(5, 4), (3, 4), (4, 5), (4, 3), (6, 4), (4, 4), (5, 5), (5, 3), (4, 4), (2, 4), (3, 5),
      (3, 3), (5, 5), (3, 5), (4, 6), (4, 4), (5, 3), (3, 3), (4, 4), (4, 2), (7, 4), (5, 4),
      (6, 5), (6, 3), (5, 4), (3, 4), (4, 5), (4, 3), (6, 5), (4, 5), (5, 6), (5, 4), (6, 3),
      (4, 3), (5, 4), (5, 2), (3, 4), (1, 4), (2, 5), (2, 3), (4, 5), (2, 5), (3, 6), (3, 4),
      (4, 3), (2, 3), (3, 4), (3, 2), (5, 6), (3, 6), (4, 7), (4, 5), (5, 2), (3, 2), (4, 3),
      (4, 1), (6, 4), (7, 5), (7, 3), (7, 5), (5, 5), (6, 6), (6, 4), (7, 3), (5, 3), (6, 4),
      (6, 2), (6, 6), (4, 6), (5, 7), (5, 5), (6, 2), (4, 2), (5, 3), (5, 1), (2, 4), (0, 4),
      (1, 5), (1, 3), (3, 5), (1, 5), (2, 6), (2, 4), (3, 3), (1, 3), (2, 4), (2, 2), (4, 6),
      (2, 6), (3, 7), (3, 5), (4, 2), (2, 2), (3, 3), (3, 1), (5, 7), (3, 7), (4, 6), (5, 1),
      (3, 1), (4, 2), (4, 0), (6, 5), (7, 6), (7, 4), (6, 3), (7, 4), (7, 2), (7, 6), (5, 6),
      (6, 7), (6, 5), (7, 2), (5, 2), (6, 3), (6, 1), (6, 7), (4, 7), (5, 6), (6, 1), (4, 1),
      (5, 2), (5, 0), (1, 4), (0, 5), (0, 3), (2, 5), (0, 5), (1, 6), (1, 4), (2, 3), (0, 3),
      (1, 4), (1, 2), (3, 6), (1, 6), (2, 7), (2, 5), (3, 2), (1, 2), (2, 3), (2, 1), (4, 7),
      (2, 7), (3, 6), (4, 1), (2, 1), (3, 2), (3, 0), (5, 0), (3, 0), (4, 1), (6, 6), (7, 7),
      (7, 5), (6, 2), (7, 3), (7, 1), (7, 7), (5, 7), (6, 6), (7, 1), (5, 1), (6, 2), (6, 0),
      (6, 0), (4, 0), (5, 1), (1, 5), (0, 6), (0, 4), (1, 3), (0, 4), (0, 2), (2, 6), (0, 6),
      (1, 7), (1, 5), (2, 2), (0, 2), (1, 3), (1, 1), (3, 7), (1, 7), (2, 6), (3, 1), (1, 1),
      (2, 2), (2, 0), (4, 0), (2, 0), (3, 1), (6, 7), (7, 6), (6, 1), (7, 2), (7, 0), (7, 0),
      (5, 0), (6, 1), (1, 6), (0, 7), (0, 5), (1, 2), (0, 3), (0, 1), (2, 7), (0, 7), (1, 6),
      (2, 1), (0, 1), (1, 2), (1, 0), (3, 0), (1, 0), (2, 1), (6, 0), (7, 1), (1, 7), (0, 6),
      (1, 1), (0, 2), (0, 0), (2, 0), (0, 0), (1, 1)] : List Coords)) := by decide

theorem c4_fold9 :
    ([(1, 0), (0, 1)] : List Coords).foldl (edgeStep c4step (fun _ => false) (fun _ => false) (4, 4))
      (([((5, 4), (4, 4)), ((3, 4), (4, 4)), ((4, 5), (4, 4)), ((4, 3), (4, 4)), ((6, 4), (4, 4)),
      ((4, 4), (4, 4)), ((5, 5), (4, 4)), ((5, 3), (4, 4)), ((2, 4), (4, 4)), ((3, 5), (4, 4)),
      ((3, 3), (4, 4)), ((4, 6), (4, 4)), ((4, 2), (4, 4)), ((7, 4), (4, 4)), ((6, 5), (4, 4)),
      ((6, 3), (4, 4)), ((5, 6), (4, 4)), ((5, 2), (4, 4)), ((1, 4), (4, 4)), ((2, 5), (4, 4)),
      ((2, 3), (4, 4)), ((3, 6), (4, 4)), ((3, 2), (4, 4)), ((4, 7), (4, 4)), ((4, 1), (4, 4)),
      ((7, 5), (4, 4)), ((7, 3), (4, 4)), ((6, 6), (4, 4)), ((6, 2), (4, 4)), ((5, 7), (4, 4)),
      ((5, 1), (4, 4)), ((0, 4), (4, 4)), ((1, 5), (4, 4)), ((1, 3), (4, 4)), ((2, 6), (4, 4)),
      ((2, 2), (4, 4)), ((3, 7), (4, 4)), ((3, 1), (4, 4)), ((4, 0), (4, 4)), ((7, 6), (4, 4)),
      ((7, 2), (4, 4)), ((6, 7), (4, 4)), ((6, 1), (4, 4)), ((5, 0), (4, 4)), ((0, 5), (4, 4)),
      ((0, 3), (4, 4)), ((1, 6), (4, 4)), ((1, 2), (4, 4)), ((2, 7), (4, 4)), ((2, 1), (4, 4)),
      ((3, 0), (4, 4)), ((7, 7), (4, 4)), ((7, 1), (4, 4)), ((6, 0), (4, 4)), ((0, 6), (4, 4)),
      ((0, 2), (4, 4)), ((1, 7), (4, 4)), ((1, 1), (4, 4)), ((2, 0), (4, 4)), ((7, 0), (4, 4)),
      ((0, 7), (4, 4)), ((0, 1), (4, 4)), ((1, 0), (4, 4)), ((0, 0), (4, 4))] : List CMove), ([] : List Coords), ([(5, 4), (3, 4), (4, 5), (4, 3), (6, 4), (4, 4), (5, 5), (5, 3), (4, 4), (2, 4), (3, 5),
      (3, 3), (5, 5), (3, 5), (4, 6), (4, 4), (5, 3), (3, 3), (4, 4), (4, 2), (7, 4), (5, 4),
      (6, 5), (6, 3), (5, 4), (3, 4), (4, 5), (4, 3), (6, 5), (4, 5), (5, 6), (5, 4), (6, 3),
      (4, 3), (5, 4), (5, 2), (3, 4), (1, 4), (2, 5), (2, 3), (4, 5), (2, 5), (3, 6), (3, 4),
      (4, 3), (2, 3), (3, 4), (3, 2), (5, 6), (3, 6), (4, 7), (4, 5), (5, 2), (3, 2), (4, 3),
      (4, 1), (6, 4), (7, 5), (7, 3), (7, 5), (5, 5), (6, 6), (6, 4), (7, 3), (5, 3), (6, 4),
      (6, 2), (6, 6), (4, 6), (5, 7), (5, 5), (6, 2), (4, 2), (5, 3), (5, 1), (2, 4), (0, 4),
      (1, 5), (1, 3), (3, 5), (1, 5), (2, 6), (2, 4), (3, 3), (1, 3), (2, 4), (2, 2), (4, 6),
      (2, 6), (3, 7), (3, 5), (4, 2), (2, 2), (3, 3), (3, 1), (5, 7), (3, 7), (4, 6), (5, 1),
      (3, 1), (4, 2), (4, 0), (6, 5), (7, 6), (7, 4), (6, 3), (7, 4), (7, 2), (7, 6), (5, 6),
      (6, 7), (6, 5), (7, 2), (5, 2), (6, 3), (6, 1), (6, 7), (4, 7), (5, 6), (6, 1), (4, 1),
      (5, 2), (5, 0), (1, 4), (0, 5), (0, 3), (2, 5), (0, 5), (1, 6), (1, 4), (2, 3), (0, 3),
      (1, 4), (1, 2), (3, 6), (1, 6), (2, 7), (2, 5), (3, 2), (1, 2), (2, 3), (2, 1), (4, 7),
      (2, 7), (3, 6), (4, 1), (2, 1), (3, 2), (3, 0), (5, 0), (3, 0), (4, 1), (6, 6), (7, 7),
      (7, 5), (6, 2), (7, 3), (7, 1), (7, 7), (5, 7), (6, 6), (7, 1), (5, 1), (6, 2), (6, 0),
      (6, 0), (4, 0), (5, 1), (1, 5), (0, 6), (0, 4), (1, 3), (0, 4), (0, 2), (2, 6), (0, 6),
      (1, 7), (1, 5), (2, 2), (0, 2), (1, 3), (1, 1), (3, 7), (1, 7), (2, 6), (3, 1), (1, 1),
      (2, 2), (2, 0), (4, 0), (2, 0), (3, 1), (6, 7), (7, 6), (6, 1), (7, 2), (7, 0), (7, 0),
      (5, 0), (6, 1), (1, 6), (0, 7), (0, 5), (1, 2), (0, 3), (0, 1), (2, 7), (0, 7), (1, 6),
      (2, 1), (0, 1), (1, 2), (1, 0), (3, 0), (1, 0), (2, 1), (6, 0), (7, 1), (1, 7), (0, 6),
      (1, 1), (0, 2), (0, 0), (2, 0), (0, 0), (1, 1)] : List Coords))
    = (([((5, 4), (4, 4)), ((3, 4), (4, 4)), ((4, 5), (4, 4)), ((4, 3), (4, 4)), ((6, 4), (4, 4)),
      ((4, 4), (4, 4)), ((5, 5), (4, 4)), ((5, 3), (4, 4)), ((2, 4), (4, 4)), ((3, 5), (4, 4)),
      ((3, 3), (4, 4)), ((4, 6), (4, 4)), ((4, 2), (4, 4)), ((7, 4), (4, 4)), ((6, 5), (4, 4)),
      ((6, 3), (4, 4)), ((5, 6), (4, 4)), ((5, 2), (4, 4)), ((1, 4), (4, 4)), ((2, 5), (4, 4)),
      ((2, 3), (4, 4)), ((3, 6), (4, 4)), ((3, 2), (4, 4)), ((4, 7), (4, 4)), ((4, 1), (4, 4)),
      ((7, 5), (4, 4)), ((7, 3), (4, 4)), ((6, 6), (4, 4)), ((6, 2), (4, 4)), ((5, 7), (4, 4)),
      ((5, 1), (4, 4)), ((0, 4), (4, 4)), ((1, 5), (4, 4)), ((1, 3), (4, 4)), ((2, 6), (4, 4)),
      ((2, 2), (4, 4)), ((3, 7), (4, 4)), ((3, 1), (4, 4)), ((4, 0), (4, 4)), ((7, 6), (4, 4)),
      ((7, 2), (4, 4)), ((6, 7), (4, 4)), ((6, 1), (4, 4)), ((5, 0), (4, 4)), ((0, 5), (4, 4)),
      ((0, 3), (4, 4)), ((1, 6), (4, 4)), ((1, 2), (4, 4)), ((2, 7), (4, 4)), ((2, 1), (4, 4)),
      ((3, 0), (4, 4)), ((7, 7), (4, 4)), ((7, 1), (4, 4)), ((6, 0), (4, 4)), ((0, 6), (4, 4)),
      ((0, 2), (4, 4)), ((1, 7), (4, 4)), ((1, 1), (4, 4)), ((2, 0), (4, 4)), ((7, 0), (4, 4)),
      ((0, 7), (4, 4)), ((0, 1), (4, 4)), ((1, 0), (4, 4)), ((0, 0), (4, 4))] : List CMove), ([] : List Coords), ([(5, 4), (3, 4), (4, 5), (4, 3), (6, 4), (4, 4), (5, 5), (5, 3), (4, 4), (2, 4), (3, 5),
      (3, 3), (5, 5), (3, 5), (4, 6), (4, 4), (5, 3), (3, 3), (4, 4), (4, 2), (7, 4), (5, 4),
      (6, 5), (6, 3), (5, 4), (3, 4), (4, 5), (4, 3), (6, 5), (4, 5), (5, 6), (5, 4), (6, 3),
      (4, 3), (5, 4), (5, 2), (3, 4), (1, 4), (2, 5), (2, 3), (4, 5), (2, 5), (3, 6), (3, 4),
      (4, 3), (2, 3), (3, 4), (3, 2), (5, 6), (3, 6), (4, 7), (4, 5), (5, 2), (3, 2), (4, 3),
      (4, 1), (6, 4), (7, 5), (7, 3), (7, 5), (5, 5), (6, 6), (6, 4), (7, 3), (5, 3), (6, 4),
      (6, 2), (6, 6), (4, 6), (5, 7), (5, 5), (6, 2), (4, 2), (5, 3), (5, 1), (2, 4), (0, 4),
      (1, 5), (1, 3), (3, 5), (1, 5), (2, 6), (2, 4), (3, 3), (1, 3), (2, 4), (2, 2), (4, 6),
      (2, 6), (3, 7), (3, 5), (4, 2), (2, 2), (3, 3), (3, 1), (5, 7), (3, 7), (4, 6), (5, 1),
      (3, 1), (4, 2), (4, 0), (6, 5), (7, 6), (7, 4), (6, 3), (7, 4), (7, 2), (7, 6), (5, 6),
      (6, 7), (6, 5), (7, 2), (5, 2), (6, 3), (6, 1), (6, 7), (4, 7), (5, 6), (6, 1), (4, 1),
      (5, 2), (5, 0), (1, 4), (0, 5), (0, 3), (2, 5), (0, 5), (1, 6), (1, 4), (2, 3), (0, 3),
      (1, 4), (1, 2), (3, 6), (1, 6), (2, 7), (2, 5), (3, 2), (1, 2), (2, 3), (2, 1), (4, 7),
      (2, 7), (3, 6), (4, 1), (2, 1), (3, 2), (3, 0), (5, 0), (3, 0), (4, 1), (6, 6), (7, 7),
      (7, 5), (6, 2), (7, 3), (7, 1), (7, 7), (5, 7), (6, 6), (7, 1), (5, 1), (6, 2), (6, 0),
      (6, 0), (4, 0), (5, 1), (1, 5), (0, 6), (0, 4), (1, 3), (0, 4), (0, 2), (2, 6), (0, 6),
      (1, 7), (1, 5), (2, 2), (0, 2), (1, 3), (1, 1), (3, 7), (1, 7), (2, 6), (3, 1), (1, 1),
      (2, 2), (2, 0), (4, 0), (2, 0), (3, 1), (6, 7), (7, 6), (6, 1), (7, 2), (7, 0), (7, 0),
      (5, 0), (6, 1), (1, 6), (0, 7), (0, 5), (1, 2), (0, 3), (0, 1), (2, 7), (0, 7), (1, 6),
      (2, 1), (0, 1), (1, 2), (1, 0), (3, 0), (1, 0), (2, 1), (6, 0), (7, 1), (1, 7), (0, 6),
      (1, 1), (0, 2), (0, 0), (2, 0), (0, 0), (1, 1), (1, 0), (0, 1)] : List Coords)) := by decide

theorem c4_eval :
    chainLegal c4chain (4, 4) 64 = some ([((5, 4), (4, 4)), ((3, 4), (4, 4)), ((4, 5), (4, 4)), ((4, 3), (4, 4)), ((6, 4), (4, 4)),
      ((4, 4), (4, 4)), ((5, 5), (4, 4)), ((5, 3), (4, 4)), ((2, 4), (4, 4)), ((3, 5), (4, 4)),
      ((3, 3), (4, 4)), ((4, 6), (4, 4)), ((4, 2), (4, 4)), ((7, 4), (4, 4)), ((6, 5), (4, 4)),
      ((6, 3), (4, 4)), ((5, 6), (4, 4)), ((5, 2), (4, 4)), ((1, 4), (4, 4)), ((2, 5), (4, 4)),
      ((2, 3), (4, 4)), ((3, 6), (4, 4)), ((3, 2), (4, 4)), ((4, 7), (4, 4)), ((4, 1), (4, 4)),
      ((7, 5), (4, 4)), ((7, 3), (4, 4)), ((6, 6), (4, 4)), ((6, 2), (4, 4)), ((5, 7), (4, 4)),
      ((5, 1), (4, 4)), ((0, 4), (4, 4)), ((1, 5), (4, 4)), ((1, 3), (4, 4)), ((2, 6), (4, 4)),
      ((2, 2), (4, 4)), ((3, 7), (4, 4)), ((3, 1), (4, 4)), ((4, 0), (4, 4)), ((7, 6), (4, 4)),
      ((7, 2), (4, 4)), ((6, 7), (4, 4)), ((6, 1), (4, 4)), ((5, 0), (4, 4)), ((0, 5), (4, 4)),
      ((0, 3), (4, 4)), ((1, 6), (4, 4)), ((1, 2), (4, 4)), ((2, 7), (4, 4)), ((2, 1), (4, 4)),
      ((3, 0), (4, 4)), ((7, 7), (4, 4)), ((7, 1), (4, 4)), ((6, 0), (4, 4)), ((0, 6), (4, 4)),
      ((0, 2), (4, 4)), ((1, 7), (4, 4)), ((1, 1), (4, 4)), ((2, 0), (4, 4)), ((7, 0), (4, 4)),
      ((0, 7), (4, 4)), ((0, 1), (4, 4)), ((1, 0), (4, 4)), ((0, 0), (4, 4))] : List CMove) := by
  show patternLoop c4step (fun _ => false) (fun _ => false) (4, 4) 64 [] (c4step (4, 4)) [] = _
  rw [show c4step (4, 4) = [(5, 4), (3, 4), (4, 5), (4, 3)] from by decide]
  rw [patternLoop_step (show (64 : Nat) = 63 + 1 from rfl) c4_fold1]
  rw [patternLoop_step (show (63 : Nat) = 62 + 1 from rfl) c4_fold2]
  rw [patternLoop_step (show (62 : Nat) = 61 + 1 from rfl) c4_fold3]
  rw [patternLoop_step (show (61 : Nat) = 60 + 1 from rfl) c4_fold4]
  rw [patternLoop_step (show (60 : Nat) = 59 + 1 from rfl) c4_fold5]
  rw [patternLoop_step (show (59 : Nat) = 58 + 1 from rfl) c4_fold6]
  rw [patternLoop_step (show (58 : Nat) = 57 + 1 from rfl) c4_fold7]
  rw [patternLoop_step (show (57 : Nat) = 56 + 1 from rfl) c4_fold8]
  rw [patternLoop_step (show (56 : Nat) = 55 + 1 from rfl) c4_fold9]
  exact patternLoop_nil 55 _ _

theorem c4dests_eq : c4dests = ([(5, 4), (3, 4), (4, 5), (4, 3), (6, 4), (4, 4), (5, 5), (5, 3), (2, 4), (3, 5), (3, 3),
      (4, 6), (4, 2), (7, 4), (6, 5), (6, 3), (5, 6), (5, 2), (1, 4), (2, 5), (2, 3), (3, 6),
      (3, 2), (4, 7), (4, 1), (7, 5), (7, 3), (6, 6), (6, 2), (5, 7), (5, 1), (0, 4), (1, 5),
      (1, 3), (2, 6), (2, 2), (3, 7), (3, 1), (4, 0), (7, 6), (7, 2), (6, 7), (6, 1), (5, 0),
      (0, 5), (0, 3), (1, 6), (1, 2), (2, 7), (2, 1), (3, 0), (7, 7), (7, 1), (6, 0), (0, 6),
      (0, 2), (1, 7), (1, 1), (2, 0), (7, 0), (0, 7), (0, 1), (1, 0), (0, 0)] : List Coords) := by
  show ((chainLegal c4chain (4, 4) 64).getD []).map Prod.fst = _
  rw [c4_eval]
  decide

/-- C4 counterexample: the §8 pattern-expander configuration (axis-unit
steps, never stopping on the empty board, never skipping, sub-rule with
no moves, from (4,4)) enumerates 64 destination coordinates, not the
claimed 14: breadth-first expansion continues through every unoccupied
square in all four directions, so the frontier floods the whole board
instead of staying on row 4 and column 4. -/
theorem c4_counterexample : c4dests.length = 64 ∧ ¬ (c4dests.length = 14) := by
  rw [c4dests_eq]
  constructor <;> decide

/-- C4 amended: the configuration of §8 enumerates exactly 64 destination
coordinates — every cell of the 8×8 board, including (4,4) itself — each
exactly once. -/
theorem c4_amended :
    c4dests.length = 64 ∧ c4dests.Nodup ∧
    (∀ c ∈ c4cells, c ∈ c4dests) ∧ (∀ c ∈ c4dests, c ∈ c4cells) := by
  rw [c4dests_eq]
  refine ⟨by decide, by decide, by decide, by decide⟩

/-- C7: a `SimpleTurn` over 3 sub-rules at index 0, after `execute_move`
then `undo_move` with no sub-move, returns to turn index 0 with
`self.sub_rule` pointing at position 0 of the sequence (`cur = 0`). -/
theorem c7_round_trip :
    turnUndo seq3 (turnExec seq3 ⟨0, 0⟩ env0 none).1
        (turnExec seq3 ⟨0, 0⟩ env0 none).2 none = (⟨0, 0⟩, env0) ∧
    (turnExec seq3 ⟨0, 0⟩ env0 none).1 = ⟨1, 1⟩ := by
  constructor <;> decide

/-- C9: `SimpleTurn.__init__` with any integer `turn` argument `t` over a
non-empty sequence stores `t mod N` as the turn index but always points
`self.sub_rule` at position 0, so the active sub-rule agrees with the
stored index exactly when `t mod N = 0`. -/
theorem c9_init_desync (seq : List (List Piece)) (t : ℤ) (h : seq ≠ []) :
    ∃ st, mkSimpleTurn seq t = some st ∧
      st.turn = (t % (seq.length : ℤ)).toNat ∧ st.cur = 0 ∧
      (st.turn = st.cur ↔ t % (seq.length : ℤ) = 0) := by
  have hn : seq.length ≠ 0 := by simpa using h
  refine ⟨⟨(t % (seq.length : ℤ)).toNat, 0⟩, by simp [mkSimpleTurn, hn], rfl, rfl, ?_⟩
  have hnn : 0 ≤ t % (seq.length : ℤ) :=
    Int.emod_nonneg t (by exact_mod_cast hn)
  constructor
  · intro he
    simp only at he
    omega
  · intro he
    simp [he]

theorem c9_witness :
    (seq3 ≠ []) ∧
    ∃ st, mkSimpleTurn seq3 5 = some st ∧
      st.turn = ((5 : ℤ) % ((seq3.length : ℕ) : ℤ)).toNat ∧ st.cur = 0 ∧
      (st.turn = st.cur ↔ (5 : ℤ) % ((seq3.length : ℕ) : ℤ) = 0) :=
  ⟨by simp [seq3], c9_init_desync seq3 5 (by simp [seq3])⟩

/-- C5: the sequencer's turn index stays in `[0, N)`: `execute_move` sets
it to `(index+1) mod N` (before the delegated sub-move runs), `undo_move`
sets it to `(index-1) mod N` (after the delegated inverse), the integer
modulo in the undo arithmetic is non-negative even from index 0 (Python's
`%` with positive modulus agrees with `Int.emod`), and construction also
lands in range. -/
theorem c5_turn_bounds (seq : List (List Piece)) (st : TurnSt) (env : Env)
    (m : Option (ℕ × SMove)) (h : st.turn < seq.length) :
    ((turnExec seq st env m).1.turn = (st.turn + 1) % seq.length ∧
      (turnExec seq st env m).1.turn < seq.length) ∧
    ((turnUndo seq st env m).1.turn = (((st.turn : ℤ) - 1) % (seq.length : ℤ)).toNat ∧
      (turnUndo seq st env m).1.turn < seq.length ∧
      0 ≤ ((st.turn : ℤ) - 1) % (seq.length : ℤ)) ∧
    (∀ (t : ℤ) (st0 : TurnSt), mkSimpleTurn seq t = some st0 → st0.turn < seq.length) := by
  have hn : 0 < seq.length := lt_of_le_of_lt (Nat.zero_le _) h
  have hnz : (seq.length : ℤ) ≠ 0 := by exact_mod_cast Nat.pos_iff_ne_zero.mp hn
  have hpos : (0 : ℤ) < (seq.length : ℤ) := by exact_mod_cast hn
  refine ⟨⟨?_, ?_⟩, ⟨?_, ?_, ?_⟩, ?_⟩
  · cases m <;> rfl
  · have : (turnExec seq st env m).1.turn = (st.turn + 1) % seq.length := by cases m <;> rfl
    rw [this]; exact Nat.mod_lt _ hn
  · cases m <;> rfl
  · have he : (turnUndo seq st env m).1.turn
        = (((st.turn : ℤ) - 1) % (seq.length : ℤ)).toNat := by cases m <;> rfl
    rw [he]
    have h1 : 0 ≤ ((st.turn : ℤ) - 1) % (seq.length : ℤ) := Int.emod_nonneg _ hnz
    have h2 : ((st.turn : ℤ) - 1) % (seq.length : ℤ) < (seq.length : ℤ) :=
      Int.emod_lt_of_pos _ hpos
    omega
  · exact Int.emod_nonneg _ hnz
  · intro t st0 hmk
    have hne : ¬ (seq.length = 0) := Nat.pos_iff_ne_zero.mp hn
    rw [mkSimpleTurn, if_neg hne] at hmk
    have h1 : 0 ≤ t % (seq.length : ℤ) := Int.emod_nonneg _ hnz
    have h2 : t % (seq.length : ℤ) < (seq.length : ℤ) := Int.emod_lt_of_pos _ hpos
    cases hmk
    simp only []
    omega

theorem c5_witness :
    ((⟨1, 1⟩ : TurnSt).turn < seq3.length) ∧
    (((turnExec seq3 ⟨1, 1⟩ env0 none).1.turn = ((⟨1, 1⟩ : TurnSt).turn + 1) % seq3.length ∧
       (turnExec seq3 ⟨1, 1⟩ env0 none).1.turn < seq3.length) ∧
     ((turnUndo seq3 ⟨1, 1⟩ env0 none).1.turn
         = ((((⟨1, 1⟩ : TurnSt).turn : ℤ) - 1) % ((seq3.length : ℕ) : ℤ)).toNat ∧
       (turnUndo seq3 ⟨1, 1⟩ env0 none).1.turn < seq3.length ∧
       0 ≤ (((⟨1, 1⟩ : TurnSt).turn : ℤ) - 1) % ((seq3.length : ℕ) : ℤ)) ∧
     (∀ (t : ℤ) (st0 : TurnSt), mkSimpleTurn seq3 t = some st0 → st0.turn < seq3.length)) :=
  ⟨by decide, c5_turn_bounds seq3 ⟨1, 1⟩ env0 none (by decide)⟩

theorem maxNWChildren_congr (G : GameI μ σ) {f g : σ → ℕ → Option ((UV × σ) × ℕ)}
    (hfg : ∀ s c, f s c = g s c) :
    ∀ (ms : List μ) (s : σ) (c : ℕ), maxNWChildren G f ms s c = maxNWChildren G g ms s c := by
  intro ms
  induction ms with
  | nil => intro s c; rfl
  | cons m t ih =>
    intro s c
    rw [maxNWChildren, maxNWChildren, hfg (G.exec m s) c]
    congr 1
    funext v
    simp only [ih]

theorem pruneStage_congr (G : GameI μ σ) (w : ℕ) (temp : ℚ) (O1 O2 : Oracle μ)
    (htemp : temp < 0) (h1 : ∀ i, 0 ≤ O1.rand i) (h2 : ∀ i, 0 ≤ O2.rand i)
    (k ctr : ℕ) (s : σ) :
    pruneStage G (some w) temp k O1 ctr s = pruneStage G (some w) temp k O2 ctr s := by
  rw [pruneStage, pruneStage]
  by_cases hc : w ≠ 0 ∧ w < (G.legal s).length
  · rw [if_pos hc, if_pos hc,
      if_pos (lt_of_lt_of_le htemp (h1 ctr)), if_pos (lt_of_lt_of_le htemp (h2 ctr))]
  · rw [if_neg hc, if_neg hc]

theorem maxNWBase_congr (G : GameI μ σ) (w : ℕ) (temp : ℚ) (O1 O2 : Oracle μ)
    (htemp : temp < 0) (h1 : ∀ i, 0 ≤ O1.rand i) (h2 : ∀ i, 0 ≤ O2.rand i)
    (k : ℕ) (s : σ) (ctr : ℕ) :
    maxNWBase G (some w) temp O1 k s ctr = maxNWBase G (some w) temp O2 k s ctr := by
  rw [maxNWBase, maxNWBase, pruneStage_congr G w temp O1 O2 htemp h1 h2 k ctr s]

theorem maxNWStep_congr (G : GameI μ σ) (w : ℕ) (temp : ℚ) (O1 O2 : Oracle μ)
    (htemp : temp < 0) (h1 : ∀ i, 0 ≤ O1.rand i) (h2 : ∀ i, 0 ≤ O2.rand i)
    {ih1 ih2 : ℕ → σ → ℕ → Option ((UV × σ) × ℕ)}
    (hih : ∀ k2 s2 c2, ih1 k2 s2 c2 = ih2 k2 s2 c2)
    (k : ℕ) (s : σ) (ctr : ℕ) :
    maxNWStep G (some w) temp O1 ih1 k s ctr = maxNWStep G (some w) temp O2 ih2 k s ctr := by
  rw [maxNWStep, maxNWStep, pruneStage_congr G w temp O1 O2 htemp h1 h2 k ctr s]
  congr 1
  funext r
  simp only [maxNWChildren_congr G (fun st c => hih 1 st c)]

/-- C8: with the temperature below every possible `random()` draw the
pruning branch is the deterministic heuristic one, so the width-pruned
search is independent of the randomness oracle: any two oracles with
non-negative `random()` streams give the same `maxNW` result (same
utility vector, post-state, and counter) at every depth, the pruning
stage itself is oracle-independent, and whenever the width bound bites it
selects exactly the first `width` moves in ascending order of the
depth-`k` evaluation (`sortTake` over `evalKeys`, a stable ascending
sort).  The evaluator (`G.util`) is a function of the state, hence
deterministic. -/
theorem c8_prune_determinism (G : GameI μ σ) (w : ℕ) (temp : ℚ) (O1 O2 : Oracle μ)
    (htemp : temp < 0) (h1 : ∀ i, 0 ≤ O1.rand i) (h2 : ∀ i, 0 ≤ O2.rand i) :
    (∀ (depth k : ℕ) (s : σ) (ctr : ℕ),
        maxNW G (some w) temp O1 depth k s ctr = maxNW G (some w) temp O2 depth k s ctr) ∧
    (∀ (k ctr : ℕ) (s : σ),
        pruneStage G (some w) temp k O1 ctr s = pruneStage G (some w) temp k O2 ctr s) ∧
    (∀ (k ctr : ℕ) (s : σ), w ≠ 0 → w < (G.legal s).length →
        pruneStage G (some w) temp k O1 ctr s =
          (evalKeys G k (G.player s) (G.legal s) s).map
            (fun r => (sortTake w r.1, r.2, ctr + 1))) := by
  refine ⟨?_, pruneStage_congr G w temp O1 O2 htemp h1 h2, ?_⟩
  · intro depth
    induction depth with
    | zero => exact maxNWBase_congr G w temp O1 O2 htemp h1 h2
    | succ d ih =>
      exact maxNWStep_congr G w temp O1 O2 htemp h1 h2 (fun k2 s2 c2 => ih k2 s2 c2)
  · intro k ctr s hw hlen
    rw [pruneStage, if_pos ⟨hw, hlen⟩, if_pos (lt_of_lt_of_le htemp (h1 ctr))]

theorem c8_witness :
    ((-1 : ℚ) < 0) ∧
    maxNW G3 (some 1) (-1) OW1 1 1 0 0 = maxNW G3 (some 1) (-1) OW2 1 1 0 0 :=
  ⟨by decide,
   (c8_prune_determinism G3 1 (-1) OW1 OW2 (by decide)
      (fun _ => le_refl 0) (fun _ => (by decide : (0 : ℚ) ≤ mkRat 1 2))).1 1 1 0 0⟩

theorem edgeFold_snd (step : Coords → List Coords) (stop skip : Coords → Bool)
    (cur : Coords) :
    ∀ (es : List Coords) (acc : List CMove × List Coords × List Coords),
      (∀ x ∈ acc.1, x.2 = cur) →
      ∀ x ∈ (es.foldl (edgeStep step stop skip cur) acc).1, x.2 = cur := by
  intro es
  induction es with
  | nil => intro acc h; exact h
  | cons c t ih =>
    intro acc h
    apply ih
    intro x hx
    by_cases hcond : skip c = false ∧ (c, cur) ∉ acc.1
    · simp only [edgeStep, if_pos hcond] at hx
      rcases List.mem_append.mp hx with h1 | h1
      · exact h x h1
      · rw [List.mem_singleton.mp h1]
    · simp only [edgeStep, if_neg hcond] at hx
      exact h x hx

theorem patternLoop_snd (step : Coords → List Coords) (stop skip : Coords → Bool)
    (cur : Coords) :
    ∀ (fuel : ℕ) (legal : List CMove) (edge checked : List Coords) (out : List CMove),
      (∀ x ∈ legal, x.2 = cur) →
      patternLoop step stop skip cur fuel legal edge checked = some out →
      ∀ x ∈ out, x.2 = cur := by
  intro fuel
  induction fuel with
  | zero =>
    intro legal edge checked out hinv h
    cases edge with
    | nil => cases h; exact hinv
    | cons e es => exact absurd h (by simp [patternLoop])
  | succ f ih =>
    intro legal edge checked out hinv h
    cases edge with
    | nil => cases h; exact hinv
    | cons e es =>
      rw [patternLoop] at h
      rcases hfl : (e :: es).foldl (edgeStep step stop skip cur) (legal, [], checked)
        with ⟨l2, ne2, c2⟩
      rw [hfl] at h
      have hinv2 : ∀ x ∈ l2, x.2 = cur := by
        have := edgeFold_snd step stop skip cur (e :: es) (legal, [], checked) hinv
        rw [hfl] at this
        exact this
      exact ih l2 ne2 c2 out hinv2 h

theorem chainLegal_snd :
    ∀ (ch : Chain) (cur : Coords) (fuel : ℕ) (out : List CMove),
      chainLegal ch cur fuel = some out → ∀ x ∈ out, x.2 = cur := by
  intro ch
  induction ch with
  | tile =>
    intro cur fuel out h x hx
    cases h
    simp at hx
  | pattern step stop skip sub ih =>
    intro cur fuel out h
    rw [chainLegal] at h
    cases hsub : chainLegal sub cur fuel with
    | none => rw [hsub] at h; exact absurd h (by simp)
    | some legal0 =>
      rw [hsub] at h
      have h2 : patternLoop step stop skip cur fuel legal0 (step cur) [] = some out := h
      exact patternLoop_snd step stop skip cur fuel legal0 (step cur) [] out
        (ih cur fuel legal0 hsub) h2

theorem setC_restore :
    ∀ (l : List (ℕ × Coords)) (pid : ℕ) (n : Coords),
      setC (setC l pid n) pid ((l.lookup pid).getD (0, 0)) = l := by
  intro l
  induction l with
  | nil => intro pid n; rfl
  | cons kv t ih =>
    obtain ⟨k, v⟩ := kv
    intro pid n
    by_cases hk : k = pid
    · subst hk
      simp [setC, List.lookup]
    · have hbk : (pid == k) = false := beq_eq_false_iff_ne.mpr (Ne.symm hk)
      simp only [setC, if_neg hk, List.lookup, hbk]
      rw [ih]

theorem lookup_setC_self :
    ∀ (l : List (ℕ × Coords)) (pid : ℕ) (c v : Coords),
      l.lookup pid = some v → (setC l pid c).lookup pid = some c := by
  intro l
  induction l with
  | nil => intro pid c v h; cases h
  | cons kv t ih =>
    obtain ⟨k, v0⟩ := kv
    intro pid c v h
    by_cases hk : k = pid
    · subst hk
      simp [setC, List.lookup]
    · have hbk : (pid == k) = false := beq_eq_false_iff_ne.mpr (Ne.symm hk)
      simp only [setC, if_neg hk]
      simp only [List.lookup, hbk] at h ⊢
      exact ih pid c v h

theorem foldl_erase_insert_comm (a : ℕ) :
    ∀ (t : List ℕ) (s : Finset ℕ), a ∉ t →
      t.foldl Finset.erase (insert a s) = insert a (t.foldl Finset.erase s) := by
  intro t
  induction t with
  | nil => intro s _; rfl
  | cons b r ih =>
    intro s hat
    have hab : a ≠ b := fun h => hat (h ▸ List.mem_cons_self b r)
    have har : a ∉ r := fun h => hat (List.mem_cons_of_mem b h)
    show r.foldl Finset.erase ((insert a s).erase b) = _
    rw [Finset.erase_insert_of_ne hab, ih (s.erase b) har]
    rfl

theorem foldl_erase_insert (l : List ℕ) :
    ∀ s : Finset ℕ, l.Nodup → (∀ a ∈ l, a ∈ s) →
      l.foldl (fun t a => insert a t) (l.foldl Finset.erase s) = s := by
  induction l with
  | nil => intro s _ _; rfl
  | cons a t ih =>
    intro s hnd hsub
    have hat : a ∉ t := (List.nodup_cons.mp hnd).1
    have hnd2 : t.Nodup := (List.nodup_cons.mp hnd).2
    have has : a ∈ s := hsub a (List.mem_cons_self a t)
    show t.foldl (fun t a => insert a t) (insert a ((a :: t).foldl Finset.erase s)) = s
    have h1 : (a :: t).foldl Finset.erase s = t.foldl Finset.erase (s.erase a) := rfl
    rw [h1, ← foldl_erase_insert_comm a t (s.erase a) hat, Finset.insert_erase has]
    exact ih s hnd2 (fun b hb => hsub b (List.mem_cons_of_mem a hb))

theorem sortIds_mem (s : Finset ℕ) (q : ℕ) : q ∈ sortIds s ↔ q ∈ s := by
  obtain ⟨val, hnd⟩ := s
  induction val using Quotient.inductionOn with
  | h l =>
    show q ∈ l.insertionSort (· ≤ ·) ↔ _
    rw [(List.perm_insertionSort (· ≤ ·) l).mem_iff]
    rfl

theorem sortIds_nodup (s : Finset ℕ) : (sortIds s).Nodup := by
  obtain ⟨val, hnd⟩ := s
  induction val using Quotient.inductionOn with
  | h l =>
    show (l.insertionSort (· ≤ ·)).Nodup
    exact (List.perm_insertionSort (· ≤ ·) l).nodup_iff.mpr hnd

theorem getTopRules_mem (cfg : Cfg) (env : Env) (filters : List ℕ) (q : ℕ) :
    q ∈ getTopRules cfg env filters ↔ q ∈ env.active ∧ cfg.tag q ∈ filters := by
  rw [getTopRules, sortIds_mem, Finset.mem_filter]

theorem getTopRules_nodup (cfg : Cfg) (env : Env) (filters : List ℕ) :
    (getTopRules cfg env filters).Nodup := sortIds_nodup _

theorem capturesFor_nodup (cfg : Cfg) (env : Env) (radar : List ℕ) (n : Coords) :
    (capturesFor cfg env radar n).Nodup :=
  (getTopRules_nodup cfg env radar).filter _

theorem capturesFor_sub (cfg : Cfg) (env : Env) (radar : List ℕ) (n : Coords) :
    ∀ q ∈ capturesFor cfg env radar n, q ∈ env.active := by
  intro q hq
  have h1 := List.mem_of_mem_filter hq
  exact ((getTopRules_mem cfg env radar q).mp h1).1

theorem foldl_removeRules_coords (l : List ℕ) :
    ∀ env : Env, (l.foldl removeRules env).coords = env.coords := by
  induction l with
  | nil => intro env; rfl
  | cons a t ih => intro env; exact ih (removeRules env a)

theorem foldl_removeRules_active (l : List ℕ) :
    ∀ env : Env, (l.foldl removeRules env).active = l.foldl Finset.erase env.active := by
  induction l with
  | nil => intro env; rfl
  | cons a t ih => intro env; exact ih (removeRules env a)

theorem foldl_addRules_coords (l : List ℕ) :
    ∀ env : Env, (l.foldl addRules env).coords = env.coords := by
  induction l with
  | nil => intro env; rfl
  | cons a t ih => intro env; exact ih (addRules env a)

theorem foldl_addRules_active (l : List ℕ) :
    ∀ env : Env, (l.foldl addRules env).active = l.foldl (fun t a => insert a t) env.active := by
  induction l with
  | nil => intro env; rfl
  | cons a t ih => intro env; exact ih (addRules env a)

theorem piece_restore (cfg : Cfg) (p : Piece) (env : Env) (fuel : ℕ)
    (ms : List PMove) (m : PMove)
    (h : pieceLegal cfg p env fuel = some ms) (hm : m ∈ ms) :
    pieceUndo p m (pieceExec p m env) = env := by
  rw [pieceLegal] at h
  cases hch : chainLegal p.chain (coordsOf env p.pid) fuel with
  | none => rw [hch] at h; cases h
  | some cms =>
    rw [hch] at h
    cases h
    obtain ⟨cm, hcm, rfl⟩ := List.mem_map.mp hm
    have ho : cm.2 = coordsOf env p.pid :=
      chainLegal_snd p.chain (coordsOf env p.pid) fuel cms hch cm hcm
    have hnd : (capturesFor cfg env p.radar cm.1).Nodup := capturesFor_nodup cfg env p.radar cm.1
    have hsub : ∀ q ∈ capturesFor cfg env p.radar cm.1, q ∈ env.active :=
      capturesFor_sub cfg env p.radar cm.1
    cases env with
    | mk coords active =>
      rw [pieceUndo, pieceExec]
      simp only [foldl_removeRules_coords, foldl_removeRules_active]
      have hco : setC (setC coords p.pid cm.1) p.pid cm.2 = coords := by
        have : cm.2 = ((coords.lookup p.pid).getD (0, 0)) := ho
        rw [this]
        exact setC_restore coords p.pid cm.1
      have hrest :
          (capturesFor cfg (Env.mk coords active) p.radar cm.1).foldl addRules
            (Env.mk (setC (setC coords p.pid cm.1) p.pid cm.2)
              ((capturesFor cfg (Env.mk coords active) p.radar cm.1).foldl
                Finset.erase active)) =
          Env.mk coords active := by
        have h1 := foldl_addRules_coords (capturesFor cfg (Env.mk coords active) p.radar cm.1)
          (Env.mk (setC (setC coords p.pid cm.1) p.pid cm.2)
            ((capturesFor cfg (Env.mk coords active) p.radar cm.1).foldl Finset.erase active))
        have h2 := foldl_addRules_active (capturesFor cfg (Env.mk coords active) p.radar cm.1)
          (Env.mk (setC (setC coords p.pid cm.1) p.pid cm.2)
            ((capturesFor cfg (Env.mk coords active) p.radar cm.1).foldl Finset.erase active))
        have h3 := foldl_erase_insert (capturesFor cfg (Env.mk coords active) p.radar cm.1)
          active hnd hsub
        cases hres : (capturesFor cfg (Env.mk coords active) p.radar cm.1).foldl addRules
            (Env.mk (setC (setC coords p.pid cm.1) p.pid cm.2)
              ((capturesFor cfg (Env.mk coords active) p.radar cm.1).foldl
                Finset.erase active)) with
        | mk rc ra =>
          rw [hres] at h1 h2
          simp only at h1 h2
          congr 1
          · rw [h1, hco]
          · rw [h2, h3]
      exact hrest

theorem sumLegal_mem (cfg : Cfg) (env : Env) (fuel : ℕ) :
    ∀ (ps : List Piece) (i : ℕ) (out : List SMove),
      sumLegal cfg env fuel ps i = some out →
      ∀ jm ∈ out, i ≤ jm.1 ∧
        ∃ p ms, ps[jm.1 - i]? = some p ∧
          pieceLegal cfg p env fuel = some ms ∧ jm.2 ∈ ms := by
  intro ps
  induction ps with
  | nil =>
    intro i out h jm hjm
    cases h
    simp at hjm
  | cons p t ih =>
    intro i out h jm hjm
    rw [sumLegal] at h
    cases hpl : pieceLegal cfg p env fuel with
    | none => rw [hpl] at h; cases h
    | some ms =>
      rw [hpl] at h
      cases hrest : sumLegal cfg env fuel t (i + 1) with
      | none => rw [hrest] at h; cases h
      | some rest =>
        rw [hrest] at h
        cases h
        rcases List.mem_append.mp hjm with h1 | h1
        · obtain ⟨m, hmm, rfl⟩ := List.mem_map.mp h1
          exact ⟨le_refl i, p, ms, by simp, hpl, hmm⟩
        · obtain ⟨hle, q, qms, hq, hql, hqm⟩ := ih (i + 1) rest hrest jm h1
          refine ⟨le_trans (Nat.le_succ i) hle, q, qms, ?_, hql, hqm⟩
          have : jm.1 - i = (jm.1 - (i + 1)) + 1 := by omega
          rw [this, List.getElem?_cons_succ]
          exact hq

theorem sum_restore (cfg : Cfg) (env : Env) (fuel : ℕ) (subs : List Piece)
    (out : List SMove) (m : SMove)
    (h : sumLegal cfg env fuel subs 0 = some out) (hm : m ∈ out) :
    sumUndo subs m (sumExec subs m env) = env := by
  obtain ⟨-, p, ms, hidx, hpl, hpm⟩ := sumLegal_mem cfg env fuel subs 0 out h m hm
  rw [Nat.sub_zero] at hidx
  rw [sumExec, sumUndo, hidx]
  exact piece_restore cfg p env fuel ms m.2 hpl hpm

theorem turnRetreat_advance (n t : ℕ) (h : t < n) :
    turnRetreat n (turnAdvance n t) = t := by
  have hn : 0 < n := lt_of_le_of_lt (Nat.zero_le t) h
  have hn1 : (1 : ℤ) ≤ (n : ℤ) := by exact_mod_cast hn
  rw [turnAdvance, turnRetreat]
  rcases Nat.lt_or_ge (t + 1) n with h1 | h1
  · rw [Nat.mod_eq_of_lt h1]
    have h2 : (((t + 1 : ℕ) : ℤ)) - 1 = (t : ℤ) := by push_cast; ring
    rw [h2, Int.emod_eq_of_lt (by positivity) (by exact_mod_cast h)]
    exact Int.toNat_natCast t
  · have h2 : t + 1 = n := Nat.le_antisymm (Nat.succ_le_of_lt h) h1
    rw [h2, Nat.mod_self]
    have key : ((0 : ℕ) : ℤ) - 1 = (-1 : ℤ) := by norm_num
    rw [key]
    have h4 : ((-1 : ℤ) + (n : ℤ) * 1) % (n : ℤ) = (-1 : ℤ) % (n : ℤ) :=
      Int.add_mul_emod_self_left (-1) (n : ℤ) 1
    have h5 : ((-1 : ℤ) + (n : ℤ) * 1) = (n : ℤ) - 1 := by ring
    rw [h5] at h4
    rw [← h4, Int.emod_eq_of_lt (by omega) (by omega)]
    omega

theorem turnLegal_mem (cfg : Cfg) (seq : List (List Piece)) (st : TurnSt) (env : Env)
    (fuel : ℕ) (out : List (ℕ × SMove))
    (h : turnLegal cfg seq st env fuel = some out) :
    ∃ subs sout, seq[st.cur]? = some subs ∧
      sumLegal cfg env fuel subs 0 = some sout ∧
      out = sout.map (fun m => (st.cur, m)) := by
  rw [turnLegal] at h
  cases hs : seq[st.cur]? with
  | none => rw [hs] at h; cases h
  | some subs =>
    rw [hs] at h
    have h2 : Option.map (List.map fun m => (st.cur, m)) (sumLegal cfg env fuel subs 0)
        = some out := h
    cases hsl : sumLegal cfg env fuel subs 0 with
    | none => rw [hsl] at h2; cases h2
    | some sout =>
      rw [hsl] at h2
      cases h2
      exact ⟨subs, sout, rfl, hsl, rfl⟩

/-- C1 (amended): for every rule of the composition (piece, `RuleSum`,
`SimpleTurn`) whose `SimpleTurn` state is in sync (`sub_rule` at index
`turn`, index in range — as construction with `turn ≡ 0 (mod N)`
establishes and execute/undo preserve) and every move of its legal-move
enumeration, `execute_move` followed by `undo_move` restores the state
exactly: the subsequent `get_legal_moves` agrees at every fuel (hence is
set-equal), and every leaf coordinate is identical.  Without the sync
hypothesis the property fails (see the counterexample). -/
theorem c1_reversibility (cfg : Cfg) (r : GRule) (st : TurnSt) (env : Env) (fuel : ℕ)
    (moves : List Mv) (m : Mv) (hs : syncOK r st)
    (hl : legalMoves cfg r st env fuel = some moves) (hm : m ∈ moves) :
    undoMove r m (execMove r m (st, env)) = (st, env) ∧
    (∀ f2 : ℕ, legalMoves cfg r (undoMove r m (execMove r m (st, env))).1
        (undoMove r m (execMove r m (st, env))).2 f2 = legalMoves cfg r st env f2) ∧
    (undoMove r m (execMove r m (st, env))).2.coords = env.coords := by
  have hmain : undoMove r m (execMove r m (st, env)) = (st, env) := by
    cases r with
    | piece p =>
      rw [legalMoves] at hl
      cases hpl : pieceLegal cfg p env fuel with
      | none => rw [hpl] at hl; cases hl
      | some ms =>
        rw [hpl] at hl
        cases hl
        obtain ⟨pm, hpmm, rfl⟩ := List.mem_map.mp hm
        show (st, pieceUndo p pm (pieceExec p pm env)) = (st, env)
        rw [piece_restore cfg p env fuel ms pm hpl hpmm]
    | rsum subs =>
      rw [legalMoves] at hl
      cases hsl : sumLegal cfg env fuel subs 0 with
      | none => rw [hsl] at hl; cases hl
      | some out =>
        rw [hsl] at hl
        cases hl
        obtain ⟨sm, hsmm, rfl⟩ := List.mem_map.mp hm
        show (st, sumUndo subs sm (sumExec subs sm env)) = (st, env)
        rw [sum_restore cfg env fuel subs out sm hsl hsmm]
    | sturn seq =>
      obtain ⟨hcur, hlt⟩ := hs
      rw [legalMoves] at hl
      cases htl : turnLegal cfg seq st env fuel with
      | none => rw [htl] at hl; cases hl
      | some out =>
        rw [htl] at hl
        cases hl
        obtain ⟨subs, sout, hsubs, hsl, rfl⟩ := turnLegal_mem cfg seq st env fuel out htl
        obtain ⟨m0, hm0, rfl⟩ := List.mem_map.mp hm
        obtain ⟨sm, hsm, rfl⟩ := List.mem_map.mp hm0
        show turnUndo seq (turnExec seq st env (some (st.cur, sm))).1
            (turnExec seq st env (some (st.cur, sm))).2 (some (st.cur, sm)) = (st, env)
        rw [turnExec, turnUndo]
        simp only [hsubs]
        rw [sum_restore cfg env fuel subs sout sm hsl hsm]
        have ht : turnRetreat seq.length (turnAdvance seq.length st.turn) = st.turn :=
          turnRetreat_advance seq.length st.turn hlt
        rw [ht]
        cases st with
        | mk turn cur =>
          simp only at hcur
          rw [hcur]
  exact ⟨hmain, fun f2 => by rw [hmain], by rw [hmain]⟩

/-- C1 counterexample: a `SimpleTurn` as `SimpleTurn(gs, r0, r1, turn=1)`
constructs it (stored index 1, `sub_rule` at position 0) has its single
legal move; executing and undoing that move leaves the leaf coordinates
intact but repoints `sub_rule` at index 1, so the post-round-trip
legal-move set (`some []`) differs from the pre-execute one
(`some [mvX]`): the claim as stated, over every rule and every legal
move, is false. -/
theorem c1_counterexample :
    mkSimpleTurn [[pieceA], []] 1 = some stX ∧
    legalMoves cfgX rX stX envX 4 = some [mvX] ∧
    legalMoves cfgX rX (undoMove rX mvX (execMove rX mvX (stX, envX))).1
        (undoMove rX mvX (execMove rX mvX (stX, envX))).2 4 = some [] ∧
    (undoMove rX mvX (execMove rX mvX (stX, envX))).2.coords = envX.coords ∧
    ¬ (legalMoves cfgX rX (undoMove rX mvX (execMove rX mvX (stX, envX))).1
        (undoMove rX mvX (execMove rX mvX (stX, envX))).2 4
      = legalMoves cfgX rX stX envX 4) := by
  refine ⟨by decide, by decide, by decide, by decide, by decide⟩

theorem c1_witness :
    (syncOK rX ⟨0, 0⟩ ∧ legalMoves cfgX rX ⟨0, 0⟩ envX 4 = some [mvX] ∧ mvX ∈ [mvX]) ∧
    (undoMove rX mvX (execMove rX mvX (⟨0, 0⟩, envX)) = (⟨0, 0⟩, envX) ∧
     (∀ f2 : ℕ, legalMoves cfgX rX (undoMove rX mvX (execMove rX mvX (⟨0, 0⟩, envX))).1
         (undoMove rX mvX (execMove rX mvX (⟨0, 0⟩, envX))).2 f2
       = legalMoves cfgX rX ⟨0, 0⟩ envX f2) ∧
     (undoMove rX mvX (execMove rX mvX (⟨0, 0⟩, envX))).2.coords = envX.coords) :=
  ⟨⟨⟨rfl, by decide⟩, by decide, by decide⟩,
   c1_reversibility cfgX rX ⟨0, 0⟩ envX 4 [mvX] mvX ⟨rfl, by decide⟩ (by decide) (by decide)⟩

theorem filter_eq_singleton {p : ℕ → Bool} {q : ℕ} :
    ∀ {l : List ℕ}, l.Nodup → q ∈ l → p q = true →
      (∀ x ∈ l, p x = true → x = q) → l.filter p = [q] := by
  intro l
  induction l with
  | nil => intro _ hq; simp at hq
  | cons a t ih =>
    intro hnd hq hpq huniq
    have hat : a ∉ t := (List.nodup_cons.mp hnd).1
    have hnd2 : t.Nodup := (List.nodup_cons.mp hnd).2
    rcases List.mem_cons.mp hq with rfl | hqt
    · have hft : t.filter p = [] := by
        rw [List.filter_eq_nil_iff]
        intro x hx hpx
        exact hat ((huniq x (List.mem_cons_of_mem q hx) hpx) ▸ hx)
      rw [List.filter_cons_of_pos hpq, hft]
    · have hpa : p a = false := by
        cases hpa0 : p a with
        | false => rfl
        | true => exact absurd hqt ((huniq a (List.mem_cons_self a t) hpa0) ▸ hat)
      rw [List.filter_cons_of_neg (by simp [hpa])]
      exact ih hnd2 hqt hpq (fun x hx hpx => huniq x (List.mem_cons_of_mem a hx) hpx)

/-- C2: with exactly one opposing piece `q` (active, matched by the
radar) whose bottom coordinates equal a chain move's destination `n`,
`SimpleCapture.generate_legal_moves` attaches exactly `[q]` as that
move's capture list; `execute_move` deactivates `q` (absent from every
`get_top_rules` query) and applies the positional change to the bottom
tile; `undo_move` undoes the position and re-adds the very same id, and
in fact restores the whole environment, so `q` is active again. -/
theorem c2_capture (cfg : Cfg) (p : Piece) (env : Env) (fuel : ℕ) (q : ℕ)
    (n o : Coords) (cms : List CMove)
    (hlk : env.coords.lookup p.pid = some o)
    (hch : chainLegal p.chain o fuel = some cms) (hcm : (n, o) ∈ cms)
    (hq : q ∈ env.active) (htag : cfg.tag q ∈ p.radar) (hqc : coordsOf env q = n)
    (huniq : ∀ x ∈ env.active, cfg.tag x ∈ p.radar → coordsOf env x = n → x = q) :
    ∃ ms, pieceLegal cfg p env fuel = some ms ∧ ((n, o), [q]) ∈ ms ∧
      q ∉ (pieceExec p ((n, o), [q]) env).active ∧
      (∀ fs : List ℕ, q ∉ getTopRules cfg (pieceExec p ((n, o), [q]) env) fs) ∧
      (pieceExec p ((n, o), [q]) env).coords.lookup p.pid = some n ∧
      pieceUndo p ((n, o), [q]) (pieceExec p ((n, o), [q]) env) = env ∧
      q ∈ (pieceUndo p ((n, o), [q]) (pieceExec p ((n, o), [q]) env)).active := by
  have hco : coordsOf env p.pid = o := by rw [coordsOf, hlk]; rfl
  have hcap : capturesFor cfg env p.radar n = [q] := by
    rw [capturesFor]
    refine filter_eq_singleton (getTopRules_nodup cfg env p.radar)
      ((getTopRules_mem cfg env p.radar q).mpr ⟨hq, htag⟩) (by simp [hqc]) ?_
    intro x hx hpx
    obtain ⟨hxa, hxt⟩ := (getTopRules_mem cfg env p.radar x).mp hx
    exact huniq x hxa hxt (by simpa using hpx)
  have hms : pieceLegal cfg p env fuel
      = some (cms.map (fun m => (m, capturesFor cfg env p.radar m.1))) := by
    rw [pieceLegal, hco, hch]
    rfl
  have hmem : ((n, o), [q]) ∈ cms.map (fun m => (m, capturesFor cfg env p.radar m.1)) := by
    refine List.mem_map.mpr ⟨(n, o), hcm, ?_⟩
    simp [hcap]
  have hact : (pieceExec p ((n, o), [q]) env).active = env.active.erase q := by
    rw [pieceExec]
    simp only [foldl_removeRules_active]
    rfl
  have hqgone : q ∉ (pieceExec p ((n, o), [q]) env).active := by
    rw [hact]; exact Finset.not_mem_erase q env.active
  have hrestore : pieceUndo p ((n, o), [q]) (pieceExec p ((n, o), [q]) env) = env :=
    piece_restore cfg p env fuel _ ((n, o), [q]) hms hmem
  refine ⟨_, hms, hmem, hqgone, ?_, ?_, ?_, ?_⟩
  · intro fs hmemf
    exact hqgone ((getTopRules_mem cfg _ fs q).mp hmemf).1
  · rw [pieceExec]
    simp only [foldl_removeRules_coords]
    exact lookup_setC_self env.coords p.pid n o hlk
  · exact hrestore
  · rw [hrestore]; exact hq

theorem c2_witness :
    (env2.coords.lookup (pieceC2.pid) = some (0, 0) ∧
     chainLegal pieceC2.chain (0, 0) 4 = some [((1, 0), (0, 0))] ∧
     (1 : ℕ) ∈ env2.active ∧ cfg2.tag 1 ∈ pieceC2.radar ∧ coordsOf env2 1 = (1, 0)) ∧
    (∃ ms, pieceLegal cfg2 pieceC2 env2 4 = some ms ∧ (((1, 0), (0, 0)), [1]) ∈ ms ∧
      (1 : ℕ) ∉ (pieceExec pieceC2 (((1, 0), (0, 0)), [1]) env2).active ∧
      (∀ fs : List ℕ, (1 : ℕ) ∉ getTopRules cfg2 (pieceExec pieceC2 (((1, 0), (0, 0)), [1]) env2) fs) ∧
      (pieceExec pieceC2 (((1, 0), (0, 0)), [1]) env2).coords.lookup pieceC2.pid = some (1, 0) ∧
      pieceUndo pieceC2 (((1, 0), (0, 0)), [1]) (pieceExec pieceC2 (((1, 0), (0, 0)), [1]) env2) = env2 ∧
      (1 : ℕ) ∈ (pieceUndo pieceC2 (((1, 0), (0, 0)), [1])
        (pieceExec pieceC2 (((1, 0), (0, 0)), [1]) env2)).active) :=
  ⟨⟨by decide, by decide, by decide, by decide, by decide⟩,
   c2_capture cfg2 pieceC2 env2 4 1 (1, 0) (0, 0) [((1, 0), (0, 0))]
     (by decide) (by decide) (by decide) (by decide) (by decide) (by decide)
     (by decide)⟩

end GameEval
